import Mathlib

/-!
# Verification of the TrapMasterPro analysis / DSP / export pipeline

Shallow embedding of the repository's audio engine:

* `src/engine/dspModules.js` — DSP primitives (dynamic EQ, adaptive
  compressor, soft clipper, limiter, mid/side, mono-bass),
* `src/engine/advancedPitchCorrector.js` — the pitch corrector used by the
  BigCappo preset,
* `src/engine/presets.js` — the preset engine and its sixteen chains,
* `losslessProcessor.js` — dither, true-peak limiter, normalizer, SRC,
* `src/engine/exportValidator.js` — loudness / peak measurement,
* `src/engine/audioEngine.js` — the WAV export pipeline,
* `src/engine/audioAnalysis.js` — the analysis engine's loudness measure.

JavaScript numbers are modelled as real numbers (`ℝ`); JavaScript arrays of
samples as `List ℝ`.  Stateful per-sample processors become explicit
state-passing functions, and in-place buffer mutation is modelled either by
pure functions from buffers to buffers or (for the aliasing claim) by an
explicit store of arrays.
-/

set_option maxHeartbeats 1000000

noncomputable section

namespace TrapPro

/-- JavaScript `x || d` for numbers: yields `d` when `x` is falsy (`0`). -/
def jsOr (x d : ℝ) : ℝ := if x = 0 then d else x

/-- JavaScript `Math.round`: round half away from zero is *not* JS semantics;
JS rounds half toward `+∞` (`Math.round(-0.5) = -0`), i.e. `⌊x + 1/2⌋`. -/
def jsRound (x : ℝ) : ℤ := ⌊x + 1/2⌋

/-- JavaScript `Math.sign`-style sign used by the soft clipper:
`driven > 0 ? 1 : -1`. -/
def clipSign (x : ℝ) : ℝ := if x > 0 then 1 else -1

/-!
## Data model: PCM buffers

`AudioBuffer` mirrors the Web Audio `AudioBuffer` objects flowing through the
engine: a channel count, a frame count, a sample rate and channel-major
sample data.
-/

structure AudioBuffer where
  numberOfChannels : ℕ
  length : ℕ
  sampleRate : ℝ
  channels : List (List ℝ)

/-- A well-formed buffer: the channel list matches the declared channel count
and every channel holds exactly `length` samples. -/
def AudioBuffer.valid (b : AudioBuffer) : Prop :=
  b.channels.length = b.numberOfChannels ∧ ∀ c ∈ b.channels, c.length = b.length

/-!
## Measurement record (`audioAnalysis.js` output)

The fields of the analysis record that the preset chains read.
-/

structure SpectralBalance where
  low : ℝ
  mid : ℝ
  high : ℝ

structure AnalysisData where
  integratedLUFS : ℝ
  dynamicRange : ℝ
  crestFactor : ℝ
  spectralBalance : SpectralBalance
  vocalDominance : ℝ
  harshness : ℝ
  mud : ℝ
  bassStability : ℝ

/-!
## `dspModules.js` — DSP primitives

Each stateful primitive is a structure holding its constructor parameters and
mutable state; `process` returns the output sample together with the updated
state.
-/

/-- `DynamicEQ` (dspModules.js): frequency-dependent gain adapting to input
level through a one-pole envelope follower. -/
structure DynamicEQ where
  frequency : ℝ
  q : ℝ
  threshold : ℝ
  ratio : ℝ
  attack : ℝ
  release : ℝ
  gain : ℝ
  envelope : ℝ
  sampleRate : ℝ

def DynamicEQ.mk0 (frequency q threshold ratio attack release gain : ℝ) : DynamicEQ :=
  ⟨frequency, q, threshold, ratio, attack, release, gain, 0, 44100⟩

def DynamicEQ.setSampleRate (e : DynamicEQ) (sr : ℝ) : DynamicEQ :=
  { e with sampleRate := sr }

/-- `DynamicEQ.process(sample, inputLevel)`. -/
def DynamicEQ.process (e : DynamicEQ) (sample inputLevel : ℝ) : ℝ × DynamicEQ :=
  let target := |inputLevel|
  let coeff := if target > e.envelope
    then Real.exp (-1 / (e.attack * e.sampleRate))
    else Real.exp (-1 / (e.release * e.sampleRate))
  let envelope := target + (e.envelope - target) * coeff
  let dbLevel := 20 * Real.logb 10 (envelope + 1e-10)
  let gainReduction :=
    if dbLevel > e.threshold then min ((dbLevel - e.threshold) / e.ratio) e.gain else 0
  let gainLinear := (10 : ℝ) ^ (-gainReduction / 20)
  (sample * gainLinear, { e with envelope := envelope })

/-- `AdaptiveCompressor` (dspModules.js). -/
structure AdaptiveCompressor where
  threshold : ℝ
  ratio : ℝ
  attack : ℝ
  release : ℝ
  knee : ℝ
  makeupGain : ℝ
  envelope : ℝ
  sampleRate : ℝ

def AdaptiveCompressor.mk0 (threshold ratio attack release knee makeupGain : ℝ) :
    AdaptiveCompressor :=
  ⟨threshold, ratio, attack, release, knee, makeupGain, 0, 44100⟩

def AdaptiveCompressor.setSampleRate (c : AdaptiveCompressor) (sr : ℝ) : AdaptiveCompressor :=
  { c with sampleRate := sr }

/-- `adaptThreshold(analysisData)`: shifts the threshold when the measured
dynamic range (JS `analysisData.dynamicRange || 12`) exceeds the target 8. -/
def AdaptiveCompressor.adaptThreshold (c : AdaptiveCompressor) (a : AnalysisData) :
    AdaptiveCompressor :=
  let dynamicRange := jsOr a.dynamicRange 12
  if dynamicRange > 8 then
    { c with threshold := -12 - (dynamicRange - 8) * 0.5 }
  else c

/-- `AdaptiveCompressor.process(sample)`. -/
def AdaptiveCompressor.process (c : AdaptiveCompressor) (sample : ℝ) :
    ℝ × AdaptiveCompressor :=
  let target := |sample|
  let coeff := if target > c.envelope
    then Real.exp (-1 / (c.attack * c.sampleRate))
    else Real.exp (-1 / (c.release * c.sampleRate))
  let envelope := target + (c.envelope - target) * coeff
  let dbLevel := 20 * Real.logb 10 (envelope + 1e-10)
  let gainReduction :=
    if dbLevel > c.threshold - c.knee / 2 then
      if dbLevel < c.threshold + c.knee / 2 then
        let excess := dbLevel - (c.threshold - c.knee / 2)
        (excess / c.knee) * (excess / c.ratio)
      else
        let excess := dbLevel - c.threshold
        excess - excess / c.ratio
    else 0
  let gainLinear := (10 : ℝ) ^ ((-gainReduction + c.makeupGain) / 20)
  (sample * gainLinear, { c with envelope := envelope })

/-- `SoftClipper` (dspModules.js): drive followed by tanh saturation of the
content beyond the threshold. -/
structure SoftClipper where
  drive : ℝ
  threshold : ℝ

/-- `SoftClipper.process(sample)`. -/
def SoftClipper.process (s : SoftClipper) (sample : ℝ) : ℝ :=
  let driven := sample * s.drive
  if |driven| > s.threshold then
    let sign := clipSign driven
    let excess := |driven| - s.threshold
    sign * (s.threshold + (1 - s.threshold) * Real.tanh (excess / (1 - s.threshold)))
  else driven

/-- `Limiter` (dspModules.js): zero-lookahead peak limiter with exponential
release, ceiling in linear amplitude. -/
structure Limiter where
  ceiling : ℝ
  release : ℝ
  gainReduction : ℝ
  sampleRate : ℝ

def Limiter.mk0 (ceiling release : ℝ) : Limiter := ⟨ceiling, release, 1, 44100⟩

def Limiter.setSampleRate (l : Limiter) (sr : ℝ) : Limiter := { l with sampleRate := sr }

/-- `Limiter.process(sample)`. -/
def Limiter.process (l : Limiter) (sample : ℝ) : ℝ × Limiter :=
  let absSample := |sample|
  let gainReduction :=
    if absSample > l.ceiling then
      min l.gainReduction (l.ceiling / (absSample + 1e-10))
    else
      let releaseCoeff := Real.exp (-1 / (l.release * l.sampleRate))
      min 1 (1 + (l.gainReduction - 1) * releaseCoeff)
  (sample * gainReduction, { l with gainReduction := gainReduction })

/-- `MidSideProcessor` (dspModules.js): stereo width control. -/
structure MidSideProcessor where
  width : ℝ

/-- `MidSideProcessor.process(left, right)`. -/
def MidSideProcessor.process (m : MidSideProcessor) (left right : ℝ) : ℝ × ℝ :=
  let mid := (left + right) * 0.5
  let side := (left - right) * 0.5
  let processedSide := side * m.width
  (mid + processedSide, mid - processedSide)

/-- `MonoBassProcessor` (dspModules.js): one-pole low-pass on each channel,
replaces the per-channel low component with their shared mono average. -/
structure MonoBassProcessor where
  cutoff : ℝ
  sampleRate : ℝ
  alpha : ℝ
  leftLP : ℝ
  rightLP : ℝ

/-- Constructor: `rc = 1/(cutoff·2π)`, `dt = 1/sampleRate`,
`alpha = dt/(rc+dt)`. -/
def MonoBassProcessor.mk0 (cutoff sampleRate : ℝ) : MonoBassProcessor :=
  let rc := 1 / (cutoff * 2 * Real.pi)
  let dt := 1 / sampleRate
  ⟨cutoff, sampleRate, dt / (rc + dt), 0, 0⟩

/-- Updated left low-pass state for input `left`. -/
def MonoBassProcessor.newLeftLP (m : MonoBassProcessor) (left : ℝ) : ℝ :=
  m.leftLP + m.alpha * (left - m.leftLP)

/-- Updated right low-pass state for input `right`. -/
def MonoBassProcessor.newRightLP (m : MonoBassProcessor) (right : ℝ) : ℝ :=
  m.rightLP + m.alpha * (right - m.rightLP)

/-- `MonoBassProcessor.process(left, right)`. -/
def MonoBassProcessor.process (m : MonoBassProcessor) (left right : ℝ) :
    ℝ × ℝ × MonoBassProcessor :=
  let leftLP := m.newLeftLP left
  let rightLP := m.newRightLP right
  let mono := (leftLP + rightLP) * 0.5
  (left - leftLP + mono, right - rightLP + mono,
    { m with leftLP := leftLP, rightLP := rightLP })

/-!
## `advancedPitchCorrector.js` — pitch corrector for the BigCappo preset
-/

/-- Pitch-detection result (`detectPitch` return object). -/
structure PitchInfo where
  frequency : ℝ
  deviation : ℝ
  nearestSemitone : ℤ
  confidence : ℝ

/-- Lazily-initialised delay line state of `applyPitchShift`. -/
structure DelayLine where
  line : List ℝ
  delayIndex : ℕ
  readIndex : ℝ
  lastSample : ℝ

/-- State of `AdvancedPitchCorrector`. -/
structure AdvancedPitchCorrector where
  threshold : ℝ
  retuneSpeed : ℝ
  sampleRate : ℝ
  pitchBufferSize : ℕ
  pitchBuffer : List ℝ
  bufferIndex : ℕ
  currentPitch : ℝ
  targetPitch : ℝ
  smoothedPitch : ℝ
  pitchHistory : List ℝ
  historySize : ℕ
  correctionAmount : ℝ
  smoothCorrection : ℝ
  windowSize : ℕ
  hopSize : ℕ
  delayLine : Option DelayLine

namespace AdvancedPitchCorrector

/-- Constructor `new AdvancedPitchCorrector(threshold, retuneSpeed, sampleRate)`. -/
def mk0 (threshold retuneSpeed sampleRate : ℝ) : AdvancedPitchCorrector where
  threshold := threshold
  retuneSpeed := retuneSpeed
  sampleRate := sampleRate
  pitchBufferSize := 2048
  pitchBuffer := List.replicate 2048 0
  bufferIndex := 0
  currentPitch := 0
  targetPitch := 0
  smoothedPitch := 0
  pitchHistory := []
  historySize := 10
  correctionAmount := 0
  smoothCorrection := 0
  windowSize := 1024
  hopSize := 256
  delayLine := none

/-- `reset()`. -/
def reset (p : AdvancedPitchCorrector) : AdvancedPitchCorrector :=
  { p with
    pitchBuffer := List.replicate p.pitchBufferSize 0
    bufferIndex := 0
    currentPitch := 0
    targetPitch := 0
    smoothedPitch := 0
    pitchHistory := []
    correctionAmount := 0
    smoothCorrection := 0
    delayLine := p.delayLine.map fun d =>
      { d with line := List.replicate d.line.length 0, delayIndex := 0,
               readIndex := 512, lastSample := 0 } }

/-- Hann window factor `0.5 - 0.5·cos(2πi/(n-1))`. -/
def hann (n i : ℕ) : ℝ :=
  0.5 - 0.5 * Real.cos (2 * Real.pi * i / (n - 1 : ℕ))

/-- Windowed slice value `windowed[i] = buffer[i] * hann(i)` over the last
`windowSize` entries of `samples`. -/
def windowedAt (p : AdvancedPitchCorrector) (samples : List ℝ) (i : ℕ) : ℝ :=
  ((samples.drop (samples.length - p.windowSize)).getD i 0) * hann p.windowSize i

/-- Raw autocorrelation sum at a given lag:
`Σ_{i < windowSize - lag} windowed[i]·windowed[i+lag]`. -/
def autocorrSum (p : AdvancedPitchCorrector) (samples : List ℝ) (lag : ℕ) : ℝ :=
  ∑ i ∈ Finset.range (p.windowSize - lag), windowedAt p samples i * windowedAt p samples (i + lag)

/-- The `autocorr` array entry: set only for lags visited by the search loop,
zero (the `Float32Array` default) elsewhere. -/
def autocorrAt (p : AdvancedPitchCorrector) (samples : List ℝ) (minLag maxLagRange lag : ℕ) : ℝ :=
  if minLag ≤ lag ∧ lag < maxLagRange ∧ lag < p.windowSize then autocorrSum p samples lag else 0

/-- The argmax loop of `detectPitch`: starting from `maxCorr = 0`,
`maxLag = 0`, update whenever `sum > maxCorr`. -/
def searchLoop (p : AdvancedPitchCorrector) (samples : List ℝ) (lags : List ℕ) :
    ℝ × ℕ :=
  lags.foldl
    (fun acc lag =>
      let sum := autocorrSum p samples lag
      if sum > acc.1 then (sum, lag) else acc)
    (0, 0)

/-- `detectPitch(samples)`. -/
def detectPitch (p : AdvancedPitchCorrector) (samples : List ℝ) : Option PitchInfo :=
  if min p.windowSize samples.length < p.windowSize then none
  else
    let minLag := (⌊p.sampleRate / 1000⌋).toNat
    let maxLagRange := (⌊p.sampleRate / 80⌋).toNat
    let lagCount := min maxLagRange p.windowSize - minLag
    let (maxCorr, maxLag) := searchLoop p samples (List.range' minLag lagCount)
    let refined : ℝ :=
      if minLag < maxLag ∧ (maxLag : ℤ) < (maxLagRange : ℤ) - 1 then
        let y1 := autocorrAt p samples minLag maxLagRange (maxLag - 1)
        let y2 := autocorrAt p samples minLag maxLagRange maxLag
        let y3 := autocorrAt p samples minLag maxLagRange (maxLag + 1)
        (maxLag : ℝ) + (y3 - y1) / (2 * (2 * y2 - y1 - y3))
      else (maxLag : ℝ)
    if refined < (minLag : ℝ) ∨ refined > (maxLagRange : ℝ) then none
    else
      let frequency := p.sampleRate / refined
      let semitones := 12 * Real.logb 2 (frequency / 440) + 9
      let nearestSemitone := jsRound semitones
      let deviation := (semitones - (nearestSemitone : ℝ)) * 100
      some ⟨frequency, deviation, nearestSemitone, maxCorr / ((p.windowSize : ℝ) * 0.1)⟩

/-- `applyPitchShift(sample, ratio)`: delay-line read with cubic
interpolation, then formant-preserving mix with the dry sample. -/
def applyPitchShift (p : AdvancedPitchCorrector) (sample ratio : ℝ) :
    ℝ × AdvancedPitchCorrector :=
  let d := p.delayLine.getD ⟨List.replicate 2048 0, 0, 512, 0⟩
  let len := d.line.length
  let line := d.line.set d.delayIndex sample
  let delayIndex := (d.delayIndex + 1) % len
  let correctedRatio := 1 / ratio
  let readPos0 := d.readIndex
  let readPos1 := if readPos0 < 0 then readPos0 + len else readPos0
  let readPos := if readPos1 ≥ (len : ℝ) then readPos1 - len else readPos1
  let readPosInt : ℤ := ⌊readPos⌋
  let readPosFrac := readPos - (readPosInt : ℝ)
  let idx0 := ((readPosInt - 1 + len).emod len).toNat
  let idx1 := (readPosInt.emod len).toNat
  let idx2 := ((readPosInt + 1).emod len).toNat
  let idx3 := ((readPosInt + 2).emod len).toNat
  let y0 := line.getD idx0 0
  let y1 := line.getD idx1 0
  let y2 := line.getD idx2 0
  let y3 := line.getD idx3 0
  let a0 := y3 - y2 - y0 + y1
  let a1 := y0 - y1 - a0
  let a2 := y2 - y0
  let a3 := y1
  let shiftedSample := a0 * readPosFrac ^ 3 + a1 * readPosFrac ^ 2 + a2 * readPosFrac + a3
  let readIndex0 := d.readIndex + correctedRatio
  let readIndex1 := if readIndex0 ≥ (len : ℝ) then readIndex0 - len else readIndex0
  let readIndex := if readIndex1 < 0 then readIndex1 + len else readIndex1
  let corrAmount := |p.smoothCorrection| / 100
  let formantMix := max 0.2 (0.5 - corrAmount * 0.3)
  let output := sample * formantMix + shiftedSample * (1 - formantMix)
  let d1 : DelayLine := ⟨line, delayIndex, readIndex, output⟩
  (output, { p with delayLine := some d1 })

/-- `processSample(sample)`. -/
def processSample (p : AdvancedPitchCorrector) (sample : ℝ) :
    ℝ × AdvancedPitchCorrector :=
  let pitchBuffer := p.pitchBuffer.set p.bufferIndex sample
  let bufferIndex := (p.bufferIndex + 1) % p.pitchBufferSize
  let p1 : AdvancedPitchCorrector := { p with pitchBuffer := pitchBuffer, bufferIndex := bufferIndex }
  let p2 : AdvancedPitchCorrector :=
    if bufferIndex % p1.hopSize = 0 then
      match detectPitch p1 p1.pitchBuffer with
      | some info =>
        if info.confidence > 0.3 then
          let history0 := p1.pitchHistory ++ [info.deviation]
          let history := if history0.length > p1.historySize then history0.tail else history0
          let avgDeviation := history.sum / history.length
          { p1 with targetPitch := info.deviation, pitchHistory := history,
                    smoothedPitch := avgDeviation }
        else p1
      | none => p1
    else p1
  let absDeviation := |p2.smoothedPitch|
  let p3 : AdvancedPitchCorrector :=
    if absDeviation > p2.threshold then
      let correctionStrength := min 1 ((absDeviation - p2.threshold) / 50)
      let correctionDirection : ℝ := if p2.smoothedPitch > 0 then -1 else 1
      let correctionNeeded := absDeviation * correctionStrength * correctionDirection
      { p2 with smoothCorrection :=
          p2.smoothCorrection * (1 - p2.retuneSpeed) + correctionNeeded * p2.retuneSpeed }
    else
      { p2 with smoothCorrection := p2.smoothCorrection * 0.95 }
  if |p3.smoothCorrection| > 1 then
    let ratio := (2 : ℝ) ^ (-p3.smoothCorrection / 1200)
    applyPitchShift p3 sample ratio
  else (sample, p3)

/-- `processStereo(left, right)`: both channels through the shared state, left
first. -/
def processStereo (p : AdvancedPitchCorrector) (left right : ℝ) :
    ℝ × ℝ × AdvancedPitchCorrector :=
  let (correctedLeft, p1) := p.processSample left
  let (correctedRight, p2) := p1.processSample right
  (correctedLeft, correctedRight, p2)

end AdvancedPitchCorrector

/-!
## `presets.js` — the sixteen preset chains

Every preset iterates `for (i = 0; i < length; i++)` over sample indices and
feeds each sample (or stereo pair) through its stage sequence, writing the
result back in place.  The loops are modelled by the runners below: channel
data is a `List ℝ`, an in-place write is `List.set`, and stage state is
threaded in exactly the JS iteration order (index-major, then channel order).
-/

/-- One index step of the interleaved loop
`for (ch = 0; ch < channels; ch++) data[ch][i] = chain(data[ch][i])`,
threading the shared chain state across channels. -/
def stepIndex {σ : Type} (step : σ → ℝ → ℝ × σ) (i : ℕ) :
    List (List ℝ) → σ → List (List ℝ) × σ
  | [], s => ([], s)
  | c :: cs, s =>
    let ys := step s (c.getD i 0)
    let rest := stepIndex step i cs ys.2
    (c.set i ys.1 :: rest.1, rest.2)

/-- The outer loop `for (i = start; i < start + fuel; i++)` of an interleaved
preset. -/
def runFrom {σ : Type} (step : σ → ℝ → ℝ × σ) :
    ℕ → ℕ → List (List ℝ) → σ → List (List ℝ) × σ
  | _, 0, chs, s => (chs, s)
  | i, fuel + 1, chs, s =>
    let next := stepIndex step i chs s
    runFrom step (i + 1) fuel next.1 next.2

/-- The loop of a stereo preset: per index, one pair step over
`(left[i], right[i])`. -/
def runPairFrom {σ : Type} (step : σ → ℝ → ℝ → ℝ × ℝ × σ) :
    ℕ → ℕ → List ℝ → List ℝ → σ → List ℝ × List ℝ × σ
  | _, 0, l, r, s => (l, r, s)
  | i, fuel + 1, l, r, s =>
    let next := step s (l.getD i 0) (r.getD i 0)
    runPairFrom step (i + 1) fuel (l.set i next.1) (r.set i next.2.1) next.2.2

/-- The loop of a mono fallback path: per index, one step over `data[i]` of
channel 0. -/
def runChanFrom {σ : Type} (step : σ → ℝ → ℝ × σ) :
    ℕ → ℕ → List ℝ → σ → List ℝ × σ
  | _, 0, c, s => (c, s)
  | i, fuel + 1, c, s =>
    let next := step s (c.getD i 0)
    runChanFrom step (i + 1) fuel (c.set i next.1) next.2

/-- Dispatch of a stereo-capable preset body: the `if (channels >= 2)` branch
processes channels 0 and 1 with the pair step; otherwise channel 0 runs the
mono chain.  Channels beyond the first two are untouched (the JS loops only
read `getChannelData(0)` / `getChannelData(1)`). -/
def stereoDispatch {σ : Type} (pairStep : σ → ℝ → ℝ → ℝ × ℝ × σ)
    (monoStep : σ → ℝ → ℝ × σ) (numberOfChannels len : ℕ)
    (chs : List (List ℝ)) (s : σ) : List (List ℝ) :=
  if 2 ≤ numberOfChannels then
    match chs with
    | l :: r :: rest =>
      let res := runPairFrom pairStep 0 len l r s
      res.1 :: res.2.1 :: rest
    | [c] => [c]
    | [] => []
  else
    match chs with
    | c :: rest => (runChanFrom monoStep 0 len c s).1 :: rest
    | [] => []

/-- `DeHarshPreset` (presets.js): dynamic EQ, compressor, soft clip, limit. -/
structure DeHarshPreset where
  dynamicEQ : DynamicEQ
  compressor : AdaptiveCompressor
  softClipper : SoftClipper
  limiter : Limiter

def DeHarshPreset.mk0 (sr : ℝ) : DeHarshPreset where
  dynamicEQ := (DynamicEQ.mk0 3500 2.0 (-12) 3.0 0.003 0.1 (-6)).setSampleRate sr
  compressor := (AdaptiveCompressor.mk0 (-10) 3.0 0.003 0.1 2.0 1.0).setSampleRate sr
  softClipper := ⟨1.2, 0.8⟩
  limiter := (Limiter.mk0 0.95 0.05).setSampleRate sr

def DeHarshPreset.step (s : DeHarshPreset) (x : ℝ) : ℝ × DeHarshPreset :=
  let (x1, eq1) := s.dynamicEQ.process x x
  let (x2, c1) := s.compressor.process x1
  let x3 := s.softClipper.process x2
  let (x4, l1) := s.limiter.process x3
  (x4, { s with dynamicEQ := eq1, compressor := c1, limiter := l1 })

def DeHarshPreset.process (p : DeHarshPreset) (buf : AudioBuffer) (a : AnalysisData) :
    AudioBuffer :=
  let harshness := jsOr a.harshness 0
  let adaptiveGain := min (-3) (-harshness * 8)
  let p1 : DeHarshPreset :=
    { p with dynamicEQ := { p.dynamicEQ with gain := adaptiveGain },
             compressor := p.compressor.adaptThreshold a }
  { buf with channels := (runFrom DeHarshPreset.step 0 buf.length buf.channels p1).1 }

/-- `MudRemoverPreset` (presets.js). -/
structure MudRemoverPreset where
  dynamicEQ : DynamicEQ
  compressor : AdaptiveCompressor
  monoBass : MonoBassProcessor
  limiter : Limiter

def MudRemoverPreset.mk0 (sr : ℝ) : MudRemoverPreset where
  dynamicEQ := (DynamicEQ.mk0 250 1.5 (-15) 4.0 0.005 0.15 (-8)).setSampleRate sr
  compressor := (AdaptiveCompressor.mk0 (-12) 2.5 0.003 0.08 1.5 0.5).setSampleRate sr
  monoBass := MonoBassProcessor.mk0 120 sr
  limiter := (Limiter.mk0 0.95 0.05).setSampleRate sr

def MudRemoverPreset.pairStep (s : MudRemoverPreset) (l r : ℝ) :
    ℝ × ℝ × MudRemoverPreset :=
  let (l1, r1, mb1) := s.monoBass.process l r
  let (l2, eq1) := s.dynamicEQ.process l1 l1
  let (r2, eq2) := eq1.process r1 r1
  let (l3, c1) := s.compressor.process l2
  let (r3, c2) := c1.process r2
  let (l4, lim1) := s.limiter.process l3
  let (r4, lim2) := lim1.process r3
  (l4, r4, { s with dynamicEQ := eq2, compressor := c2, monoBass := mb1, limiter := lim2 })

def MudRemoverPreset.monoStep (s : MudRemoverPreset) (x : ℝ) : ℝ × MudRemoverPreset :=
  let (x1, eq1) := s.dynamicEQ.process x x
  let (x2, c1) := s.compressor.process x1
  let (x3, lim1) := s.limiter.process x2
  (x3, { s with dynamicEQ := eq1, compressor := c1, limiter := lim1 })

def MudRemoverPreset.process (p : MudRemoverPreset) (buf : AudioBuffer) (a : AnalysisData) :
    AudioBuffer :=
  let mud := jsOr a.mud 0
  let adaptiveGain := min (-4) (-mud * 10)
  let p1 : MudRemoverPreset :=
    { p with dynamicEQ := { p.dynamicEQ with gain := adaptiveGain },
             compressor := p.compressor.adaptThreshold a }
  { buf with channels :=
      (stereoDispatch MudRemoverPreset.pairStep MudRemoverPreset.monoStep
        buf.numberOfChannels buf.length buf.channels p1) }

/-- `BassTamerPreset` (presets.js). -/
structure BassTamerPreset where
  dynamicEQ : DynamicEQ
  compressor : AdaptiveCompressor
  monoBass : MonoBassProcessor
  limiter : Limiter

def BassTamerPreset.mk0 (sr : ℝ) : BassTamerPreset where
  dynamicEQ := (DynamicEQ.mk0 60 1.0 (-10) 5.0 0.01 0.2 (-10)).setSampleRate sr
  compressor := (AdaptiveCompressor.mk0 (-8) 4.0 0.01 0.15 2.0 1.5).setSampleRate sr
  monoBass := MonoBassProcessor.mk0 120 sr
  limiter := (Limiter.mk0 0.95 0.05).setSampleRate sr

def BassTamerPreset.pairStep (s : BassTamerPreset) (l r : ℝ) :
    ℝ × ℝ × BassTamerPreset :=
  let (l1, r1, mb1) := s.monoBass.process l r
  let (l2, eq1) := s.dynamicEQ.process l1 l1
  let (r2, eq2) := eq1.process r1 r1
  let (l3, c1) := s.compressor.process l2
  let (r3, c2) := c1.process r2
  let (l4, lim1) := s.limiter.process l3
  let (r4, lim2) := lim1.process r3
  (l4, r4, { s with dynamicEQ := eq2, compressor := c2, monoBass := mb1, limiter := lim2 })

def BassTamerPreset.monoStep (s : BassTamerPreset) (x : ℝ) : ℝ × BassTamerPreset :=
  let (x1, eq1) := s.dynamicEQ.process x x
  let (x2, c1) := s.compressor.process x1
  let (x3, lim1) := s.limiter.process x2
  (x3, { s with dynamicEQ := eq1, compressor := c1, limiter := lim1 })

def BassTamerPreset.process (p : BassTamerPreset) (buf : AudioBuffer) (a : AnalysisData) :
    AudioBuffer :=
  let bassStability := jsOr a.bassStability 0
  let adaptiveGain : ℝ := if bassStability > 0.3 then -6 else -3
  let p1 : BassTamerPreset :=
    { p with dynamicEQ := { p.dynamicEQ with gain := adaptiveGain },
             compressor := p.compressor.adaptThreshold a }
  { buf with channels :=
      (stereoDispatch BassTamerPreset.pairStep BassTamerPreset.monoStep
        buf.numberOfChannels buf.length buf.channels p1) }

/-- `VintageWarmthPreset` (presets.js). -/
structure VintageWarmthPreset where
  compressor : AdaptiveCompressor
  softClipper : SoftClipper
  limiter : Limiter

def VintageWarmthPreset.mk0 (sr : ℝ) : VintageWarmthPreset where
  compressor := (AdaptiveCompressor.mk0 (-14) 2.0 0.01 0.2 3.0 2.0).setSampleRate sr
  softClipper := ⟨1.5, 0.7⟩
  limiter := (Limiter.mk0 0.95 0.08).setSampleRate sr

def VintageWarmthPreset.step (s : VintageWarmthPreset) (x : ℝ) : ℝ × VintageWarmthPreset :=
  let (x1, c1) := s.compressor.process x
  let x2 := s.softClipper.process x1
  let (x3, l1) := s.limiter.process x2
  (x3, { s with compressor := c1, limiter := l1 })

def VintageWarmthPreset.process (p : VintageWarmthPreset) (buf : AudioBuffer)
    (a : AnalysisData) : AudioBuffer :=
  let p1 : VintageWarmthPreset := { p with compressor := p.compressor.adaptThreshold a }
  { buf with channels := (runFrom VintageWarmthPreset.step 0 buf.length buf.channels p1).1 }

/-- `ModernBrightPreset` (presets.js): per-sample high-shelf style boost when
the analysed high band is weak, then compression and limiting. -/
structure ModernBrightPreset where
  compressor : AdaptiveCompressor
  limiter : Limiter

def ModernBrightPreset.mk0 (sr : ℝ) : ModernBrightPreset where
  compressor := (AdaptiveCompressor.mk0 (-12) 3.0 0.002 0.05 1.5 1.0).setSampleRate sr
  limiter := (Limiter.mk0 0.95 0.05).setSampleRate sr

def ModernBrightPreset.step (a : AnalysisData) (s : ModernBrightPreset) (x : ℝ) :
    ℝ × ModernBrightPreset :=
  let x0 := if a.spectralBalance.high < 0.3 then x * 1.15 else x
  let (x1, c1) := s.compressor.process x0
  let (x2, l1) := s.limiter.process x1
  (x2, { s with compressor := c1, limiter := l1 })

def ModernBrightPreset.process (p : ModernBrightPreset) (buf : AudioBuffer)
    (a : AnalysisData) : AudioBuffer :=
  let p1 : ModernBrightPreset := { p with compressor := p.compressor.adaptThreshold a }
  { buf with channels := (runFrom (ModernBrightPreset.step a) 0 buf.length buf.channels p1).1 }

/-- `LoFiCharacterPreset` (presets.js). -/
structure LoFiCharacterPreset where
  compressor : AdaptiveCompressor
  softClipper : SoftClipper
  limiter : Limiter

def LoFiCharacterPreset.mk0 (sr : ℝ) : LoFiCharacterPreset where
  compressor := (AdaptiveCompressor.mk0 (-16) 1.8 0.02 0.3 4.0 1.5).setSampleRate sr
  softClipper := ⟨2.0, 0.6⟩
  limiter := (Limiter.mk0 0.92 0.1).setSampleRate sr

def LoFiCharacterPreset.step (a : AnalysisData) (s : LoFiCharacterPreset) (x : ℝ) :
    ℝ × LoFiCharacterPreset :=
  let x0 := if a.spectralBalance.high > 0.35 then x * 0.92 else x
  let (x1, c1) := s.compressor.process x0
  let x2 := s.softClipper.process x1
  let (x3, l1) := s.limiter.process x2
  (x3, { s with compressor := c1, limiter := l1 })

def LoFiCharacterPreset.process (p : LoFiCharacterPreset) (buf : AudioBuffer)
    (a : AnalysisData) : AudioBuffer :=
  let p1 : LoFiCharacterPreset := { p with compressor := p.compressor.adaptThreshold a }
  { buf with channels :=
      (runFrom (LoFiCharacterPreset.step a) 0 buf.length buf.channels p1).1 }

/-- `NeoSoulPreset` (presets.js). -/
structure NeoSoulPreset where
  compressor : AdaptiveCompressor
  softClipper : SoftClipper
  limiter : Limiter

def NeoSoulPreset.mk0 (sr : ℝ) : NeoSoulPreset where
  compressor := (AdaptiveCompressor.mk0 (-13) 2.2 0.005 0.12 2.5 1.2).setSampleRate sr
  softClipper := ⟨1.3, 0.75⟩
  limiter := (Limiter.mk0 0.95 0.06).setSampleRate sr

def NeoSoulPreset.step (s : NeoSoulPreset) (x : ℝ) : ℝ × NeoSoulPreset :=
  let (x1, c1) := s.compressor.process x
  let x2 := s.softClipper.process x1
  let (x3, l1) := s.limiter.process x2
  (x3, { s with compressor := c1, limiter := l1 })

def NeoSoulPreset.process (p : NeoSoulPreset) (buf : AudioBuffer) (a : AnalysisData) :
    AudioBuffer :=
  let p1 : NeoSoulPreset := { p with compressor := p.compressor.adaptThreshold a }
  { buf with channels := (runFrom NeoSoulPreset.step 0 buf.length buf.channels p1).1 }

/-- `FestivalBangerPreset` (presets.js). -/
structure FestivalBangerPreset where
  compressor : AdaptiveCompressor
  softClipper : SoftClipper
  limiter : Limiter
  monoBass : MonoBassProcessor

def FestivalBangerPreset.mk0 (sr : ℝ) : FestivalBangerPreset where
  compressor := (AdaptiveCompressor.mk0 (-6) 4.0 0.001 0.03 1.0 3.0).setSampleRate sr
  softClipper := ⟨1.8, 0.85⟩
  limiter := (Limiter.mk0 0.98 0.01).setSampleRate sr
  monoBass := MonoBassProcessor.mk0 120 sr

def FestivalBangerPreset.pairStep (s : FestivalBangerPreset) (l r : ℝ) :
    ℝ × ℝ × FestivalBangerPreset :=
  let (l1, r1, mb1) := s.monoBass.process l r
  let (l2, c1) := s.compressor.process l1
  let (r2, c2) := c1.process r1
  let l3 := s.softClipper.process l2
  let r3 := s.softClipper.process r2
  let (l4, lim1) := s.limiter.process l3
  let (r4, lim2) := lim1.process r3
  (l4, r4, { s with compressor := c2, limiter := lim2, monoBass := mb1 })

def FestivalBangerPreset.monoStep (s : FestivalBangerPreset) (x : ℝ) :
    ℝ × FestivalBangerPreset :=
  let (x1, c1) := s.compressor.process x
  let x2 := s.softClipper.process x1
  let (x3, lim1) := s.limiter.process x2
  (x3, { s with compressor := c1, limiter := lim1 })

def FestivalBangerPreset.process (p : FestivalBangerPreset) (buf : AudioBuffer)
    (a : AnalysisData) : AudioBuffer :=
  let p1 : FestivalBangerPreset := { p with compressor := p.compressor.adaptThreshold a }
  { buf with channels :=
      (stereoDispatch FestivalBangerPreset.pairStep FestivalBangerPreset.monoStep
        buf.numberOfChannels buf.length buf.channels p1) }

/-- `FocusCenterPreset` (presets.js): mid/side width 0.7. -/
structure FocusCenterPreset where
  compressor : AdaptiveCompressor
  midSide : MidSideProcessor
  limiter : Limiter

def FocusCenterPreset.mk0 (sr : ℝ) : FocusCenterPreset where
  compressor := (AdaptiveCompressor.mk0 (-11) 2.8 0.003 0.08 2.0 1.0).setSampleRate sr
  midSide := ⟨0.7⟩
  limiter := (Limiter.mk0 0.95 0.05).setSampleRate sr

def FocusCenterPreset.pairStep (s : FocusCenterPreset) (l r : ℝ) :
    ℝ × ℝ × FocusCenterPreset :=
  let (l1, r1) := s.midSide.process l r
  let (l2, c1) := s.compressor.process l1
  let (r2, c2) := c1.process r1
  let (l3, lim1) := s.limiter.process l2
  let (r3, lim2) := lim1.process r2
  (l3, r3, { s with compressor := c2, limiter := lim2 })

def FocusCenterPreset.monoStep (s : FocusCenterPreset) (x : ℝ) : ℝ × FocusCenterPreset :=
  let (x1, c1) := s.compressor.process x
  let (x2, lim1) := s.limiter.process x1
  (x2, { s with compressor := c1, limiter := lim1 })

def FocusCenterPreset.process (p : FocusCenterPreset) (buf : AudioBuffer)
    (a : AnalysisData) : AudioBuffer :=
  let p1 : FocusCenterPreset := { p with compressor := p.compressor.adaptThreshold a }
  { buf with channels :=
      (stereoDispatch FocusCenterPreset.pairStep FocusCenterPreset.monoStep
        buf.numberOfChannels buf.length buf.channels p1) }

/-- `ImmersivePreset` (presets.js): mid/side width 1.3. -/
structure ImmersivePreset where
  compressor : AdaptiveCompressor
  midSide : MidSideProcessor
  limiter : Limiter

def ImmersivePreset.mk0 (sr : ℝ) : ImmersivePreset where
  compressor := (AdaptiveCompressor.mk0 (-12) 2.5 0.004 0.1 2.0 1.2).setSampleRate sr
  midSide := ⟨1.3⟩
  limiter := (Limiter.mk0 0.95 0.05).setSampleRate sr

def ImmersivePreset.pairStep (s : ImmersivePreset) (l r : ℝ) :
    ℝ × ℝ × ImmersivePreset :=
  let (l1, r1) := s.midSide.process l r
  let (l2, c1) := s.compressor.process l1
  let (r2, c2) := c1.process r1
  let (l3, lim1) := s.limiter.process l2
  let (r3, lim2) := lim1.process r2
  (l3, r3, { s with compressor := c2, limiter := lim2 })

def ImmersivePreset.monoStep (s : ImmersivePreset) (x : ℝ) : ℝ × ImmersivePreset :=
  let (x1, c1) := s.compressor.process x
  let (x2, lim1) := s.limiter.process x1
  (x2, { s with compressor := c1, limiter := lim1 })

def ImmersivePreset.process (p : ImmersivePreset) (buf : AudioBuffer)
    (a : AnalysisData) : AudioBuffer :=
  let p1 : ImmersivePreset := { p with compressor := p.compressor.adaptThreshold a }
  { buf with channels :=
      (stereoDispatch ImmersivePreset.pairStep ImmersivePreset.monoStep
        buf.numberOfChannels buf.length buf.channels p1) }

/-- `WideSpaciousPreset` (presets.js): mono bass then mid/side width 1.5. -/
structure WideSpaciousPreset where
  compressor : AdaptiveCompressor
  midSide : MidSideProcessor
  monoBass : MonoBassProcessor
  limiter : Limiter

def WideSpaciousPreset.mk0 (sr : ℝ) : WideSpaciousPreset where
  compressor := (AdaptiveCompressor.mk0 (-11) 2.6 0.003 0.09 2.0 1.0).setSampleRate sr
  midSide := ⟨1.5⟩
  monoBass := MonoBassProcessor.mk0 120 sr
  limiter := (Limiter.mk0 0.95 0.05).setSampleRate sr

def WideSpaciousPreset.pairStep (s : WideSpaciousPreset) (l r : ℝ) :
    ℝ × ℝ × WideSpaciousPreset :=
  let (l1, r1, mb1) := s.monoBass.process l r
  let (l2, r2) := s.midSide.process l1 r1
  let (l3, c1) := s.compressor.process l2
  let (r3, c2) := c1.process r2
  let (l4, lim1) := s.limiter.process l3
  let (r4, lim2) := lim1.process r3
  (l4, r4, { s with compressor := c2, limiter := lim2, monoBass := mb1 })

def WideSpaciousPreset.monoStep (s : WideSpaciousPreset) (x : ℝ) : ℝ × WideSpaciousPreset :=
  let (x1, c1) := s.compressor.process x
  let (x2, lim1) := s.limiter.process x1
  (x2, { s with compressor := c1, limiter := lim1 })

def WideSpaciousPreset.process (p : WideSpaciousPreset) (buf : AudioBuffer)
    (a : AnalysisData) : AudioBuffer :=
  let p1 : WideSpaciousPreset := { p with compressor := p.compressor.adaptThreshold a }
  { buf with channels :=
      (stereoDispatch WideSpaciousPreset.pairStep WideSpaciousPreset.monoStep
        buf.numberOfChannels buf.length buf.channels p1) }

/-- `VocalForwardPreset` (presets.js). -/
structure VocalForwardPreset where
  dynamicEQ : DynamicEQ
  compressor : AdaptiveCompressor
  limiter : Limiter

def VocalForwardPreset.mk0 (sr : ℝ) : VocalForwardPreset where
  dynamicEQ := (DynamicEQ.mk0 2500 1.8 (-14) 2.5 0.002 0.06 4).setSampleRate sr
  compressor := (AdaptiveCompressor.mk0 (-10) 3.0 0.002 0.05 1.5 1.5).setSampleRate sr
  limiter := (Limiter.mk0 0.95 0.05).setSampleRate sr

def VocalForwardPreset.step (s : VocalForwardPreset) (x : ℝ) : ℝ × VocalForwardPreset :=
  let (x1, eq1) := s.dynamicEQ.process x x
  let (x2, c1) := s.compressor.process x1
  let (x3, l1) := s.limiter.process x2
  (x3, { s with dynamicEQ := eq1, compressor := c1, limiter := l1 })

def VocalForwardPreset.process (p : VocalForwardPreset) (buf : AudioBuffer)
    (a : AnalysisData) : AudioBuffer :=
  let vocalDominance := jsOr a.vocalDominance 0
  let adaptiveGain : ℝ := if vocalDominance < 0.25 then 4 else 2
  let p1 : VocalForwardPreset :=
    { p with dynamicEQ := { p.dynamicEQ with gain := adaptiveGain },
             compressor := p.compressor.adaptThreshold a }
  { buf with channels := (runFrom VocalForwardPreset.step 0 buf.length buf.channels p1).1 }

/-- `SmoothMidsPreset` (presets.js). -/
structure SmoothMidsPreset where
  dynamicEQ : DynamicEQ
  compressor : AdaptiveCompressor
  limiter : Limiter

def SmoothMidsPreset.mk0 (sr : ℝ) : SmoothMidsPreset where
  dynamicEQ := (DynamicEQ.mk0 2000 2.0 (-12) 3.5 0.004 0.12 (-5)).setSampleRate sr
  compressor := (AdaptiveCompressor.mk0 (-13) 2.3 0.005 0.1 2.5 1.0).setSampleRate sr
  limiter := (Limiter.mk0 0.95 0.06).setSampleRate sr

def SmoothMidsPreset.step (s : SmoothMidsPreset) (x : ℝ) : ℝ × SmoothMidsPreset :=
  let (x1, eq1) := s.dynamicEQ.process x x
  let (x2, c1) := s.compressor.process x1
  let (x3, l1) := s.limiter.process x2
  (x3, { s with dynamicEQ := eq1, compressor := c1, limiter := l1 })

def SmoothMidsPreset.process (p : SmoothMidsPreset) (buf : AudioBuffer)
    (a : AnalysisData) : AudioBuffer :=
  let p1 : SmoothMidsPreset :=
    { p with dynamicEQ := { p.dynamicEQ with gain := -5 },
             compressor := p.compressor.adaptThreshold a }
  { buf with channels := (runFrom SmoothMidsPreset.step 0 buf.length buf.channels p1).1 }

/-- `DynamicClearPreset` (presets.js). -/
structure DynamicClearPreset where
  compressor : AdaptiveCompressor
  limiter : Limiter

def DynamicClearPreset.mk0 (sr : ℝ) : DynamicClearPreset where
  compressor := (AdaptiveCompressor.mk0 (-16) 1.5 0.01 0.15 4.0 0.5).setSampleRate sr
  limiter := (Limiter.mk0 0.95 0.08).setSampleRate sr

def DynamicClearPreset.step (s : DynamicClearPreset) (x : ℝ) : ℝ × DynamicClearPreset :=
  let (x1, c1) := s.compressor.process x
  let (x2, l1) := s.limiter.process x1
  (x2, { s with compressor := c1, limiter := l1 })

def DynamicClearPreset.process (p : DynamicClearPreset) (buf : AudioBuffer)
    (a : AnalysisData) : AudioBuffer :=
  let p1 : DynamicClearPreset := { p with compressor := p.compressor.adaptThreshold a }
  { buf with channels := (runFrom DynamicClearPreset.step 0 buf.length buf.channels p1).1 }

/-- `MaximumImpactPreset` (presets.js). -/
structure MaximumImpactPreset where
  compressor : AdaptiveCompressor
  softClipper : SoftClipper
  limiter : Limiter
  monoBass : MonoBassProcessor

def MaximumImpactPreset.mk0 (sr : ℝ) : MaximumImpactPreset where
  compressor := (AdaptiveCompressor.mk0 (-5) 4.5 0.001 0.02 0.8 4.0).setSampleRate sr
  softClipper := ⟨2.0, 0.88⟩
  limiter := (Limiter.mk0 0.99 0.005).setSampleRate sr
  monoBass := MonoBassProcessor.mk0 120 sr

def MaximumImpactPreset.pairStep (s : MaximumImpactPreset) (l r : ℝ) :
    ℝ × ℝ × MaximumImpactPreset :=
  let (l1, r1, mb1) := s.monoBass.process l r
  let (l2, c1) := s.compressor.process l1
  let (r2, c2) := c1.process r1
  let l3 := s.softClipper.process l2
  let r3 := s.softClipper.process r2
  let (l4, lim1) := s.limiter.process l3
  let (r4, lim2) := lim1.process r3
  (l4, r4, { s with compressor := c2, limiter := lim2, monoBass := mb1 })

def MaximumImpactPreset.monoStep (s : MaximumImpactPreset) (x : ℝ) :
    ℝ × MaximumImpactPreset :=
  let (x1, c1) := s.compressor.process x
  let x2 := s.softClipper.process x1
  let (x3, lim1) := s.limiter.process x2
  (x3, { s with compressor := c1, limiter := lim1 })

def MaximumImpactPreset.process (p : MaximumImpactPreset) (buf : AudioBuffer)
    (a : AnalysisData) : AudioBuffer :=
  let p1 : MaximumImpactPreset := { p with compressor := p.compressor.adaptThreshold a }
  { buf with channels :=
      (stereoDispatch MaximumImpactPreset.pairStep MaximumImpactPreset.monoStep
        buf.numberOfChannels buf.length buf.channels p1) }

/-- `BigCappoPreset` (presets.js): pitch correction, emotional-mid EQ, mid
boost, harshness trim, compression, soft clip, limit. -/
structure BigCappoPreset where
  pitchCorrector : AdvancedPitchCorrector
  dynamicEQ : DynamicEQ
  compressor : AdaptiveCompressor
  softClipper : SoftClipper
  limiter : Limiter

def BigCappoPreset.mk0 (sr : ℝ) : BigCappoPreset where
  pitchCorrector := AdvancedPitchCorrector.mk0 25 0.2 sr
  dynamicEQ := (DynamicEQ.mk0 3000 2.2 (-13) 2.8 0.004 0.1 2).setSampleRate sr
  compressor := (AdaptiveCompressor.mk0 (-12) 2.4 0.005 0.12 2.5 1.8).setSampleRate sr
  softClipper := ⟨1.4, 0.75⟩
  limiter := (Limiter.mk0 0.95 0.06).setSampleRate sr

def BigCappoPreset.pairStep (a : AnalysisData) (s : BigCappoPreset) (l r : ℝ) :
    ℝ × ℝ × BigCappoPreset :=
  let (cl, cr, pc1) := s.pitchCorrector.processStereo l r
  let (l1, eq1) := s.dynamicEQ.process cl cl
  let (r1, eq2) := eq1.process cr cr
  let l2 := l1 * 1.08
  let r2 := r1 * 1.08
  let harshness := jsOr a.harshness 0
  let l3 := if harshness > 0.25 then l2 * 0.97 else l2
  let r3 := if harshness > 0.25 then r2 * 0.97 else r2
  let (l4, c1) := s.compressor.process l3
  let (r4, c2) := c1.process r3
  let l5 := s.softClipper.process l4
  let r5 := s.softClipper.process r4
  let (l6, lim1) := s.limiter.process l5
  let (r6, lim2) := lim1.process r5
  (l6, r6, { s with pitchCorrector := pc1, dynamicEQ := eq2, compressor := c2,
                    limiter := lim2 })

def BigCappoPreset.monoStep (a : AnalysisData) (s : BigCappoPreset) (x : ℝ) :
    ℝ × BigCappoPreset :=
  let (x0, pc1) := s.pitchCorrector.processSample x
  let (x1, eq1) := s.dynamicEQ.process x0 x0
  let x2 := x1 * 1.08
  let harshness := jsOr a.harshness 0
  let x3 := if harshness > 0.25 then x2 * 0.97 else x2
  let (x4, c1) := s.compressor.process x3
  let x5 := s.softClipper.process x4
  let (x6, lim1) := s.limiter.process x5
  (x6, { s with pitchCorrector := pc1, dynamicEQ := eq1, compressor := c1,
                limiter := lim1 })

def BigCappoPreset.process (p : BigCappoPreset) (buf : AudioBuffer) (a : AnalysisData) :
    AudioBuffer :=
  let p1 : BigCappoPreset :=
    { p with compressor := p.compressor.adaptThreshold a,
             pitchCorrector := p.pitchCorrector.reset }
  { buf with channels :=
      (stereoDispatch (BigCappoPreset.pairStep a) (BigCappoPreset.monoStep a)
        buf.numberOfChannels buf.length buf.channels p1) }

/-!
## `presets.js` — the preset catalog and `PresetEngine`
-/

/-- The sixteen chains of the catalog (`getPreset`'s object keys). -/
inductive PresetKind where
  | deHarsh | mudRemover | bassTamer | vintageWarmth | modernBright
  | loFiCharacter | neoSoul | festivalBanger | focusCenter | immersive
  | wideSpacious | vocalForward | smoothMids | dynamicClear | maximumImpact
  | bigCappo
deriving DecidableEq

/-- `getPresetNames()` (presets.js). -/
def getPresetNames : List String :=
  ["De-Harsh", "Mud Remover", "Bass Tamer", "Vintage Warmth", "Modern Bright",
   "Lo-Fi Character", "Neo Soul", "Festival Banger", "Focus Center", "Immersive",
   "Wide & Spacious", "Vocal Forward", "Smooth Mids", "Dynamic & Clear",
   "Maximum Impact", "BigCappo"]

/-- The *own* keys of the object literal built by `getPreset(presetName)`:
which of the sixteen preset properties the name matches.  Prototype-chain
lookup for all other names is modelled by `getPresetLookup` below. -/
def getPresetKind (name : String) : Option PresetKind :=
  match name with
  | "De-Harsh" => some .deHarsh
  | "Mud Remover" => some .mudRemover
  | "Bass Tamer" => some .bassTamer
  | "Vintage Warmth" => some .vintageWarmth
  | "Modern Bright" => some .modernBright
  | "Lo-Fi Character" => some .loFiCharacter
  | "Neo Soul" => some .neoSoul
  | "Festival Banger" => some .festivalBanger
  | "Focus Center" => some .focusCenter
  | "Immersive" => some .immersive
  | "Wide & Spacious" => some .wideSpacious
  | "Vocal Forward" => some .vocalForward
  | "Smooth Mids" => some .smoothMids
  | "Dynamic & Clear" => some .dynamicClear
  | "Maximum Impact" => some .maximumImpact
  | "BigCappo" => some .bigCappo
  | _ => none

/-- The property names a fresh object literal inherits from
`Object.prototype`: indexing `presets[name]` with any of these yields a
truthy inherited value (a function, or `Object.prototype` itself for
`__proto__`), not `undefined`. -/
def objectPrototypeProps : List String :=
  ["constructor", "hasOwnProperty", "isPrototypeOf", "propertyIsEnumerable",
   "toLocaleString", "toString", "valueOf", "__proto__", "__defineGetter__",
   "__defineSetter__", "__lookupGetter__", "__lookupSetter__"]

/-- Result of the JS property read `presets[presetName]`. -/
inductive PresetLookup where
  | preset (k : PresetKind)
  | inherited
  | jsUndefined
deriving DecidableEq

/-- `getPreset(presetName)`: own keys of the object literal first, then the
prototype chain (`Object.prototype`), else `undefined`. -/
def getPresetLookup (name : String) : PresetLookup :=
  match getPresetKind name with
  | some k => .preset k
  | none => if name ∈ objectPrototypeProps then .inherited else .jsUndefined

/-- Running the preset object constructed by `getPreset` on a buffer:
construct the chain at the engine's sample rate and call its `process`. -/
def presetProcessRun (k : PresetKind) (sr : ℝ) (buf : AudioBuffer) (a : AnalysisData) :
    AudioBuffer :=
  match k with
  | .deHarsh => (DeHarshPreset.mk0 sr).process buf a
  | .mudRemover => (MudRemoverPreset.mk0 sr).process buf a
  | .bassTamer => (BassTamerPreset.mk0 sr).process buf a
  | .vintageWarmth => (VintageWarmthPreset.mk0 sr).process buf a
  | .modernBright => (ModernBrightPreset.mk0 sr).process buf a
  | .loFiCharacter => (LoFiCharacterPreset.mk0 sr).process buf a
  | .neoSoul => (NeoSoulPreset.mk0 sr).process buf a
  | .festivalBanger => (FestivalBangerPreset.mk0 sr).process buf a
  | .focusCenter => (FocusCenterPreset.mk0 sr).process buf a
  | .immersive => (ImmersivePreset.mk0 sr).process buf a
  | .wideSpacious => (WideSpaciousPreset.mk0 sr).process buf a
  | .vocalForward => (VocalForwardPreset.mk0 sr).process buf a
  | .smoothMids => (SmoothMidsPreset.mk0 sr).process buf a
  | .dynamicClear => (DynamicClearPreset.mk0 sr).process buf a
  | .maximumImpact => (MaximumImpactPreset.mk0 sr).process buf a
  | .bigCappo => (BigCappoPreset.mk0 sr).process buf a

/-- The copy step of `PresetEngine.process`: `createBuffer` with the input's
channel count / length / sample rate, then the per-channel `forEach` copy of
the original data into the fresh (zero-initialised) arrays. -/
def copyBuffer (buf : AudioBuffer) : AudioBuffer where
  numberOfChannels := buf.numberOfChannels
  length := buf.length
  sampleRate := buf.sampleRate
  channels := (List.range buf.numberOfChannels).map fun ch =>
    (List.range buf.length).map fun i => (buf.channels.getD ch []).getD i 0

/-- `PresetEngine.process(audioBuffer, presetName)`: look up the chain; when
the lookup yields `undefined` the guard `if (!preset)` throws the descriptive
`Preset "name" not found`; when it yields a truthy value inherited from
`Object.prototype` the guard is skipped, the working copy is created, and the
call `preset.process(processedBuffer, ...)` then throws
`TypeError: preset.process is not a function`; otherwise the chain runs over
the fresh copy of the input. -/
def PresetEngine.process (sr : ℝ) (a : AnalysisData) (buf : AudioBuffer)
    (name : String) : Except String AudioBuffer :=
  match getPresetLookup name with
  | .jsUndefined => .error ("Preset \"" ++ name ++ "\" not found")
  | .inherited => .error "TypeError: preset.process is not a function"
  | .preset k => .ok (presetProcessRun k sr (copyBuffer buf) a)

/-!
## `losslessProcessor.js`
-/

/-- `LosslessSampleRateConverter` sinc filter tap `i`
(`createSincFilter`, Blackman-windowed sinc). -/
def sincFilterAt (inputRate outputRate : ℝ) (i : ℕ) : ℝ :=
  let sincFilterLength : ℕ := 64
  let cutoff := min inputRate outputRate / 2
  let nyquist := min inputRate outputRate / 2
  let x := ((i : ℝ) - sincFilterLength / 2) / ((sincFilterLength : ℝ) / 2)
  if x = 0 then 1
  else
    let sinc := Real.sin (Real.pi * cutoff * x / nyquist) / (Real.pi * cutoff * x / nyquist)
    let window := 0.42 - 0.5 * Real.cos (2 * Real.pi * i / (sincFilterLength - 1 : ℕ))
      + 0.08 * Real.cos (4 * Real.pi * i / (sincFilterLength - 1 : ℕ))
    sinc * window

/-- `LosslessSampleRateConverter.convert(audioBuffer)`. -/
def LosslessSampleRateConverter.convert (inputRate outputRate : ℝ)
    (buf : AudioBuffer) : AudioBuffer :=
  if inputRate = outputRate then buf
  else
    let ratio := outputRate / inputRate
    let outputLength := (⌊(buf.length : ℝ) * ratio⌋).toNat
    { numberOfChannels := buf.numberOfChannels
      length := outputLength
      sampleRate := outputRate
      channels := buf.channels.map fun inputData =>
        (List.range outputLength).map fun i =>
          let inputPos := (i : ℝ) / ratio
          let inputIndex := ⌊inputPos⌋
          ∑ j ∈ Finset.range 64,
            let sampleIndex := inputIndex + j - 32
            if 0 ≤ sampleIndex ∧ sampleIndex < (buf.length : ℤ) then
              inputData.getD sampleIndex.toNat 0 * sincFilterAt inputRate outputRate j
            else 0 }

/-- `ProfessionalDither`: TPDF dither with first-order noise shaping.  The
two uniform `Math.random()` draws per call are supplied as inputs. -/
structure ProfessionalDither where
  bitDepth : ℕ
  quantizationStep : ℝ
  noiseShaping : Bool
  lastError : ℝ

def ProfessionalDither.mk0 (bitDepth : ℕ) : ProfessionalDither :=
  ⟨bitDepth, (2 : ℝ) ^ (-((bitDepth : ℤ) - 1)), true, 0⟩

/-- `applyDither(sample)`: add TPDF noise `(u₁ - u₂)·q`, subtract half the
previous quantisation error, quantise to the step grid, and remember the new
error. -/
def ProfessionalDither.applyDither (d : ProfessionalDither) (u : ℝ × ℝ) (sample : ℝ) :
    ℝ × ProfessionalDither :=
  let dither := (u.1 - u.2) * d.quantizationStep
  let dithered0 := sample + dither
  let ditheredSample := if d.noiseShaping then dithered0 - d.lastError * 0.5 else dithered0
  let quantized := (jsRound (ditheredSample / d.quantizationStep) : ℝ) * d.quantizationStep
  (quantized, { d with lastError := quantized - ditheredSample })

/-- `LosslessTruePeakLimiter` (ceiling in dB). -/
structure LosslessTruePeakLimiter where
  ceiling : ℝ
  sampleRate : ℝ
  gainReduction : ℝ
  lastSample : ℝ

def LosslessTruePeakLimiter.mk0 (ceiling sampleRate : ℝ) : LosslessTruePeakLimiter :=
  ⟨ceiling, sampleRate, 1, 0⟩

/-- `detectTruePeak(currentSample, previousSample)`: neighbour maximum with a
1% safety margin. -/
def LosslessTruePeakLimiter.detectTruePeak (currentSample previousSample : ℝ) : ℝ :=
  max |currentSample| |previousSample| * 1.01

/-- `LosslessTruePeakLimiter.process(sample)`. -/
def LosslessTruePeakLimiter.process (l : LosslessTruePeakLimiter) (sample : ℝ) :
    ℝ × LosslessTruePeakLimiter :=
  let truePeak := LosslessTruePeakLimiter.detectTruePeak sample l.lastSample
  let peakDB := 20 * Real.logb 10 (truePeak + 1e-10)
  let gainReduction :=
    if peakDB > l.ceiling then
      min l.gainReduction ((10 : ℝ) ^ ((l.ceiling - peakDB) / 20))
    else l.gainReduction
  (sample * gainReduction,
   { l with gainReduction := gainReduction, lastSample := sample })

/-- Sequential application of the true-peak limiter over a sample stream. -/
def LosslessTruePeakLimiter.processList (l : LosslessTruePeakLimiter) :
    List ℝ → List ℝ × LosslessTruePeakLimiter
  | [] => ([], l)
  | x :: xs =>
    let first := l.process x
    let rest := first.2.processList xs
    (first.1 :: rest.1, rest.2)

/-- `Σ data[i]²` over every channel of a buffer, as in
`LosslessNormalizer.calculateGain` and `ExportValidator.measureLUFS`. -/
def bufSumSquared (buf : AudioBuffer) : ℝ :=
  ∑ ch ∈ Finset.range buf.numberOfChannels,
    ∑ i ∈ Finset.range buf.length, ((buf.channels.getD ch []).getD i 0) ^ 2

/-- `Math.sqrt(sumSquared / (length * channels))` — the RMS shared by
`LosslessNormalizer.calculateGain` and `ExportValidator.measureLUFS`. -/
def rmsOf (buf : AudioBuffer) : ℝ :=
  Real.sqrt (bufSumSquared buf / (buf.length * buf.numberOfChannels))

/-- `LosslessNormalizer.calculateGain(audioBuffer)`: RMS-derived loudness,
then a gain of `10^((target - current)/20)` capped at 2 (+6 dB). -/
def LosslessNormalizer.calculateGain (targetLUFS : ℝ) (buf : AudioBuffer) : ℝ :=
  let rms := rmsOf buf
  let currentLUFS := if rms > 0 then -0.691 + 10 * Real.logb 10 rms else (-70 : ℝ)
  let lufsDifference := targetLUFS - currentLUFS
  let gain := (10 : ℝ) ^ (lufsDifference / 20)
  min gain 2

/-- `LosslessNormalizer.normalize(audioBuffer)`: multiply every sample by the
computed gain, in place. -/
def LosslessNormalizer.normalize (targetLUFS : ℝ) (buf : AudioBuffer) : AudioBuffer :=
  let gain := LosslessNormalizer.calculateGain targetLUFS buf
  { buf with channels := buf.channels.map fun c => c.map fun x => x * gain }

/-!
## `exportValidator.js` — loudness measurement
-/

/-- `ExportValidator.measureLUFS(audioBuffer)`: RMS over all channels,
`-0.691 + 10·log10(rms)` (floor −70 for silence), clamped to `[-70, 0]`. -/
def ExportValidator.measureLUFS (buf : AudioBuffer) : ℝ :=
  let rms := rmsOf buf
  let lufs := if rms > 0 then -0.691 + 10 * Real.logb 10 rms else (-70 : ℝ)
  max (-70) (min 0 lufs)

/-!
## `audioAnalysis.js` — integrated loudness
-/

/-- `AudioAnalysis.calculateLUFS(samples)`: mean-square energy over one
channel converted to the dB-like scale, −70 floor for silence, clamped to
`[-70, 0]`. -/
def AudioAnalysis.calculateLUFS (samples : List ℝ) : ℝ :=
  let sumSquared := ∑ i ∈ Finset.range samples.length, (samples.getD i 0) ^ 2
  let rms := Real.sqrt (sumSquared / samples.length)
  let lufs := if rms > 0 then -0.691 + 10 * Real.logb 10 rms else (-70 : ℝ)
  max (-70) (min 0 lufs)

/-- `analyze(audioBuffer)`'s `integratedLUFS` field: `calculateLUFS` of
channel 0 (`audioBuffer.getChannelData(0)`). -/
def AudioAnalysis.analyzeIntegratedLUFS (buf : AudioBuffer) : ℝ :=
  AudioAnalysis.calculateLUFS (buf.channels.getD 0 [])

/-!
## `audioEngine.js` — WAV serialisation paths

The three byte-packing paths of `exportToWAV`.  Samples are visited
interleaved (`for i { for ch { ... } }`), clamped to `[-1, 1]`, optionally
dithered, quantised and packed:

* 32-bit: IEEE-float samples written directly — no dither processor exists in
  this branch, so the bytes are a function of the clamped samples alone;
* 24-bit: dither iff the `dither` flag, `Math.round(sample * (2²³-1))`,
  three little-endian bytes of the 32-bit two's complement value;
* 16-bit (the `else` branch): dither iff `dither && bitDepth < 32`,
  asymmetric scaling by `0x8000`/`0x7FFF` and `setInt16` truncation.
-/

/-- `Math.max(-1, Math.min(1, x))`. -/
def clamp1 (x : ℝ) : ℝ := max (-1) (min 1 x)

/-- Interleaved sample traversal order of the export loops. -/
def interleaved (buf : AudioBuffer) : List ℝ :=
  (List.range buf.length).flatMap fun i =>
    (List.range buf.numberOfChannels).map fun ch => (buf.channels.getD ch []).getD i 0

/-- Low byte of a JS 32-bit integer expression (`v & 0xFF`). -/
def byteOf (v : ℤ) : ℕ := (v.emod 256).toNat

/-- The three bytes `int & 0xFF`, `(int >> 8) & 0xFF`, `(int >> 16) & 0xFF`
(arithmetic shifts, two's complement). -/
def bytes24 (n : ℤ) : List ℕ :=
  [byteOf n, byteOf (Int.fdiv n 256), byteOf (Int.fdiv n 65536)]

/-- JS `ToIntegerOrInfinity` truncation used by `DataView.setInt16`. -/
def jsTrunc (x : ℝ) : ℤ := if 0 ≤ x then ⌊x⌋ else -⌊-x⌋

/-- Two little-endian bytes of `setInt16(v)`. -/
def bytes16 (v : ℝ) : List ℕ :=
  let n := (jsTrunc v).emod 65536
  [byteOf n, byteOf (Int.fdiv n 256)]

/-- The 32-bit float branch: the sequence of clamped sample values passed to
`setFloat32`; the emitted bytes are the IEEE-754 images of exactly these
values.  No dither processor is constructed in this branch. -/
def writeSamples32 (buf : AudioBuffer) : List ℝ :=
  (interleaved buf).map clamp1

/-- The 24-bit PCM write loop.  `useDither` mirrors
`const ditherProcessor = dither ? new ProfessionalDither(bitDepth) : null`. -/
def write24Loop (useDither : Bool) (rand : ℕ → ℝ × ℝ) :
    List ℝ → ℕ → ProfessionalDither → List ℕ
  | [], _, _ => []
  | x :: xs, idx, d =>
    let s0 := clamp1 x
    let (s1, d1) := if useDither then d.applyDither (rand idx) s0 else (s0, d)
    let maxValue : ℝ := 2 ^ 23 - 1
    let intSample := jsRound (s1 * maxValue)
    bytes24 intSample ++ write24Loop useDither rand xs (idx + 1) d1

def writeSamples24 (dither : Bool) (rand : ℕ → ℝ × ℝ) (buf : AudioBuffer) : List ℕ :=
  write24Loop dither rand (interleaved buf) 0 (ProfessionalDither.mk0 24)

/-- The 16-bit PCM write loop.  `useDither` mirrors
`const ditherProcessor = (dither && bitDepth < 32) ? new ProfessionalDither(bitDepth) : null`. -/
def write16Loop (useDither : Bool) (rand : ℕ → ℝ × ℝ) :
    List ℝ → ℕ → ProfessionalDither → List ℕ
  | [], _, _ => []
  | x :: xs, idx, d =>
    let s0 := clamp1 x
    let (s1, d1) := if useDither then d.applyDither (rand idx) s0 else (s0, d)
    let v := if s1 < 0 then s1 * 32768 else s1 * 32767
    bytes16 v ++ write16Loop useDither rand xs (idx + 1) d1

def writeSamples16 (useDither : Bool) (rand : ℕ → ℝ × ℝ) (buf : AudioBuffer) : List ℕ :=
  write16Loop useDither rand (interleaved buf) 0 (ProfessionalDither.mk0 16)

/-- The payload written after the header: float samples for the 32-bit
branch, integer PCM bytes otherwise. -/
inductive WavPayload where
  | floats (vals : List ℝ)
  | bytes (bs : List ℕ)
deriving DecidableEq

/-- The `if (bitDepth === 32) ... else if (bitDepth === 24) ... else ...`
dispatch of `exportToWAV`'s sample-writing section. -/
def exportPayload (bitDepth : ℕ) (dither : Bool) (rand : ℕ → ℝ × ℝ)
    (buf : AudioBuffer) : WavPayload :=
  if bitDepth = 32 then .floats (writeSamples32 buf)
  else if bitDepth = 24 then .bytes (writeSamples24 dither rand buf)
  else .bytes (writeSamples16 (dither && decide (bitDepth < 32)) rand buf)

/-- Whether a dither processor is constructed (and hence dithering applied)
on the path taken for a given bit depth and `dither` flag, read off the three
branches of `exportToWAV`. -/
def ditherApplied (bitDepth : ℕ) (dither : Bool) : Bool :=
  if bitDepth = 32 then false
  else if bitDepth = 24 then dither
  else dither && decide (bitDepth < 32)

/-!
## `audioEngine.js` — `exportToWAV`

The caller's export spec.  `exportToAppleLossless` passes
`{sampleRate, bitDepth, targetLUFS, truePeakCeiling, dither, normalize}`.
`exportToWAV` destructures **only** `bitDepth`, `sampleRate`, `targetLUFS`,
`dither` and `normalize` from its `options` (audioEngine.js:199-205); the
`truePeakCeiling` property is never bound.
-/

structure ExportOptions where
  bitDepth : ℕ
  sampleRate : Option ℝ
  targetLUFS : Option ℝ
  dither : Bool
  normalize : Bool
  truePeakCeiling : Option ℝ

/-- The identifiers in scope inside `exportToWAV` when line 223
(`if (truePeakCeiling !== null)`) is evaluated: the five destructured option
bindings, the function's own locals / parameters declared up to that point,
and the module-scope imports of audioEngine.js.  `truePeakCeiling` is not
among them; the module runs in strict mode, so reading it throws a
`ReferenceError`. -/
def exportToWAVScope : List String :=
  ["bitDepth", "sampleRate", "targetLUFS", "dither", "normalize",
   "audioBuffer", "filename", "options", "workingBuffer", "this",
   "AudioAnalysis", "PresetEngine", "RealtimeProcessor",
   "LosslessSampleRateConverter", "ProfessionalDither",
   "LosslessTruePeakLimiter", "LosslessNormalizer", "ExportValidator",
   "TrapMasterProEngine"]

/-- Reading a JS identifier: its value when the name is bound in scope, a
`ReferenceError` otherwise. -/
def resolveVar {α : Type} (scope : List String) (name : String) (v : α) :
    Except String α :=
  if name ∈ scope then .ok v
  else .error ("ReferenceError: " ++ name ++ " is not defined")

/-- The true-peak-limiting loop of `exportToWAV`: one shared
`LosslessTruePeakLimiter` instance processes channel 0 in full, then channel
1, carrying its state across channels. -/
def limitBufferChannels (ceiling sr : ℝ) (chs : List (List ℝ)) : List (List ℝ) :=
  (chs.foldl
    (fun acc c =>
      let (c1, lim1) := acc.2.processList c
      (acc.1 ++ [c1], lim1))
    (([] : List (List ℝ)), LosslessTruePeakLimiter.mk0 ceiling sr)).1

/-- WAV header fields written by `exportToWAV` (the `fmt ` chunk plus sizes);
`validateExportedFile` re-reads exactly these fields from the blob, so the
byte round trip is the identity on them. -/
structure WavHeaderFields where
  fmtChunkSize : ℕ
  audioFormat : ℕ
  channels : ℕ
  sampleRate : ℝ
  byteRate : ℝ
  blockAlign : ℕ
  bitsPerSample : ℕ
  dataSize : ℕ

/-- Header construction of the three export branches. -/
def wavHeaderFor (bitDepth : ℕ) (numChannels : ℕ) (finalSampleRate : ℝ)
    (length : ℕ) : WavHeaderFields :=
  let bytesPerSample : ℕ := if bitDepth = 32 then 4 else if bitDepth = 24 then 3 else 2
  let blockAlign := numChannels * bytesPerSample
  let byteRate := finalSampleRate * blockAlign
  let dataSize := length * blockAlign
  if bitDepth = 32 then ⟨18, 3, numChannels, finalSampleRate, byteRate, blockAlign, bitDepth, dataSize⟩
  else if bitDepth = 24 then ⟨18, 1, numChannels, finalSampleRate, byteRate, blockAlign, bitDepth, dataSize⟩
  else ⟨16, 1, numChannels, finalSampleRate, byteRate, blockAlign, bitDepth, dataSize⟩

/-- Result of `validateExportedFile` (header re-parse of the emitted blob). -/
structure FileValidation where
  valid : Bool
  errors : List String
  warnings : List String
  fileHeader : WavHeaderFields

/-- `ExportValidator.validateExportedFile(blob, expectedSpecs)`: re-read the
header fields and compare them with the expected specs.  Error messages are
abbreviated; the `valid` flag and which checks fire follow the source. -/
def ExportValidator.validateExportedFile (h : WavHeaderFields)
    (expectedSampleRate : Option ℝ) (expectedBitDepth : Option ℕ)
    (expectedChannels : Option ℕ) : FileValidation :=
  let srErr := match expectedSampleRate with
    | some sr => if sr ≠ 0 ∧ h.sampleRate ≠ sr then ["Sample rate mismatch"] else []
    | none => []
  let bdErr := match expectedBitDepth with
    | some bd => if bd ≠ 0 ∧ h.bitsPerSample ≠ bd then ["Bit depth mismatch"] else []
    | none => []
  let chWarn := match expectedChannels with
    | some ch => if ch ≠ 0 ∧ h.channels ≠ ch then ["Channel count mismatch"] else []
    | none => []
  let fmtErr :=
    if expectedBitDepth = some 32 ∧ h.audioFormat ≠ 3 then ["Audio format mismatch"]
    else if expectedBitDepth ≠ some 32 ∧ h.audioFormat ≠ 1 then ["Audio format mismatch"]
    else []
  let errors := srErr ++ bdErr ++ fmtErr
  ⟨errors.isEmpty, errors, chWarn, h⟩

/-- Return record of a completed `exportToWAV` call. -/
structure ExportResult where
  bitDepth : ℕ
  sampleRate : ℝ
  payload : WavPayload
  fileValidation : FileValidation

/-- `TrapMasterProEngine.exportToWAV(audioBuffer, filename, options)`.

Stage order as in the source: optional sample-rate conversion, optional
loudness normalisation, then the true-peak-limiting block guarded by
`if (truePeakCeiling !== null)` — whose condition reads the undeclared
identifier `truePeakCeiling` (audioEngine.js:223) — then header/sample
serialisation and header validation. -/
def exportToWAV (buf : AudioBuffer) (opts : ExportOptions) (rand : ℕ → ℝ × ℝ) :
    Except String ExportResult := do
  let bitDepth := opts.bitDepth
  let workingBuffer0 := buf
  let workingBuffer1 :=
    match opts.sampleRate with
    | some sr2 =>
      if sr2 ≠ 0 ∧ sr2 ≠ buf.sampleRate then
        LosslessSampleRateConverter.convert buf.sampleRate sr2 workingBuffer0
      else workingBuffer0
    | none => workingBuffer0
  let workingBuffer2 :=
    match opts.targetLUFS with
    | some target =>
      if opts.normalize then LosslessNormalizer.normalize target workingBuffer1
      else workingBuffer1
    | none => workingBuffer1
  let truePeakCeiling ← resolveVar exportToWAVScope "truePeakCeiling" opts.truePeakCeiling
  let workingBuffer3 :=
    match truePeakCeiling with
    | some c =>
      { workingBuffer2 with channels :=
          limitBufferChannels c workingBuffer2.sampleRate workingBuffer2.channels }
    | none => workingBuffer2
  let numChannels := workingBuffer3.numberOfChannels
  let finalSampleRate := workingBuffer3.sampleRate
  let header := wavHeaderFor bitDepth numChannels finalSampleRate workingBuffer3.length
  let payload := exportPayload bitDepth opts.dither rand workingBuffer3
  let fileValidation :=
    ExportValidator.validateExportedFile header (some finalSampleRate)
      (some bitDepth) (some numChannels)
  pure ⟨bitDepth, finalSampleRate, payload, fileValidation⟩

/-- The option record `exportToAppleLossless` passes to `exportToWAV` for the
Apple-Lossless spec `{sampleRate: 48000, bitDepth: 24, truePeakCeiling: -0.5}`
(audioEngine.js:419-426). -/
def appleLosslessOptions : ExportOptions :=
  ⟨24, some 48000, some (-9), true, true, some (-0.5)⟩

/-!
## Store model of buffer aliasing (`PresetEngine.process` frame effect)

Web-Audio channel data arrays live in a heap; `createBuffer` allocates fresh
arrays and the preset loops write only through the working buffer's arrays.
The heap is modelled as a list of arrays indexed by allocation order.
-/

/-- The heap of channel-data arrays. -/
abbrev Store := List (List ℝ)

/-- A buffer object holding references into the store. -/
structure BufferRef where
  numberOfChannels : ℕ
  length : ℕ
  sampleRate : ℝ
  channelRefs : List ℕ

/-- `getChannelData`: dereference one array. -/
def Store.read (st : Store) (r : ℕ) : List ℝ := st.getD r []

/-- Overwrite the arrays named by `rs` with the given contents. -/
def Store.writeMany (st : Store) (rs : List ℕ) (vs : List (List ℝ)) : Store :=
  (rs.zip vs).foldl (fun acc p => acc.set p.1 p.2) st

/-- `audioContext.createBuffer(n, len, sr)`: allocate `n` fresh
zero-initialised arrays at the end of the store. -/
def Store.createBuffer (st : Store) (n len : ℕ) (sr : ℝ) : BufferRef × Store :=
  (⟨n, len, sr, (List.range n).map (· + st.length)⟩,
   st ++ List.replicate n (List.replicate len 0))

/-- Materialise a buffer object from the store. -/
def Store.readBuf (st : Store) (b : BufferRef) : AudioBuffer :=
  ⟨b.numberOfChannels, b.length, b.sampleRate, b.channelRefs.map st.read⟩

/-- `PresetEngine.process` against the store: look up the chain, allocate the
working buffer, copy the input's samples into it, run the chain loops (which
write only through the working buffer's arrays), and return the working
buffer's reference with the updated store. -/
def PresetEngine.processStore (st : Store) (input : BufferRef) (sr : ℝ)
    (a : AnalysisData) (name : String) : Except String (BufferRef × Store) :=
  match getPresetLookup name with
  | .jsUndefined => .error ("Preset \"" ++ name ++ "\" not found")
  | .inherited => .error "TypeError: preset.process is not a function"
  | .preset k =>
    let created := st.createBuffer input.numberOfChannels input.length input.sampleRate
    let procRef := created.1
    let st1 := created.2
    let st2 := st1.writeMany procRef.channelRefs ((copyBuffer (st.readBuf input)).channels)
    let out := presetProcessRun k sr (st2.readBuf procRef) a
    let st3 := st2.writeMany procRef.channelRefs out.channels
    .ok (procRef, st3)

/-!
## Concrete fixtures used by witnesses
-/

/-- A small concrete measurement record. -/
def sampleAnalysis : AnalysisData :=
  ⟨-14, 12, 4, ⟨0.3, 0.4, 0.3⟩, 0.2, 0.1, 0.1, 0.2⟩

/-- A small concrete stereo buffer. -/
def sampleBuffer : AudioBuffer :=
  ⟨2, 3, 44100, [[0.1, -0.2, 0.3], [0.1, -0.2, 0.3]]⟩

/-- A zero-energy mono buffer. -/
def zeroBuffer : AudioBuffer := ⟨1, 2, 44100, [[0, 0]]⟩

/-!
## Theorems
-/

/-- Catalogue lookup characterisation: `getPreset` yields `undefined` exactly
for names outside `getPresetNames`. -/
theorem getPresetKind_none_iff (name : String) :
    getPresetKind name = none ↔ name ∉ getPresetNames := by
  unfold getPresetKind getPresetNames
  split <;> simp_all

/-- C6 counterexample: `"toString"` is not in the preset catalogue, yet
`PresetEngine.process` does **not** fail with the descriptive
`Preset "toString" not found` error — `presets["toString"]` finds the truthy
`Object.prototype.toString` through the prototype chain, so the `if (!preset)`
guard is skipped and the call fails later with
`TypeError: preset.process is not a function`. -/
theorem preset_lookup_prototype_counterexample :
    "toString" ∉ getPresetNames ∧
    PresetEngine.process 44100 sampleAnalysis sampleBuffer "toString"
      ≠ .error ("Preset \"" ++ "toString" ++ "\" not found") := by
  constructor
  · decide
  · have hl : getPresetLookup "toString" = .inherited := by decide
    simp only [PresetEngine.process, hl]
    intro h
    have : "TypeError: preset.process is not a function"
        = "Preset \"" ++ "toString" ++ "\" not found" := by
      injection h
    exact absurd this (by decide)

/-- C6 (amended): for every chain name that is neither in the preset
catalogue nor a property name inherited from `Object.prototype`,
`PresetEngine.process` fails immediately with the descriptive
`Preset "name" not found` error and never silently substitutes a default
chain; for every name in the catalogue the lookup succeeds and `process`
does not fail; for the `Object.prototype` property names (`constructor`,
`toString`, `valueOf`, `hasOwnProperty`, `__proto__`, …) the lookup yields
a truthy inherited value, the NotFound guard is skipped, and `process`
instead fails later with `TypeError: preset.process is not a function`. -/
theorem preset_lookup_notfound_resolves_or_inherited (sr : ℝ) (a : AnalysisData)
    (buf : AudioBuffer) (name : String) :
    (name ∉ getPresetNames → name ∉ objectPrototypeProps →
      PresetEngine.process sr a buf name
        = .error ("Preset \"" ++ name ++ "\" not found")) ∧
    (name ∈ getPresetNames →
      ∃ out, PresetEngine.process sr a buf name = .ok out) ∧
    (name ∉ getPresetNames → name ∈ objectPrototypeProps →
      PresetEngine.process sr a buf name
        = .error "TypeError: preset.process is not a function") := by
  refine ⟨fun h hp => ?_, fun h => ?_, fun h hp => ?_⟩
  · have h0 : getPresetKind name = none := (getPresetKind_none_iff name).mpr h
    simp [PresetEngine.process, getPresetLookup, h0, hp]
  · have h0 : getPresetKind name ≠ none := fun hn => (getPresetKind_none_iff name).mp hn h
    obtain ⟨k, hk⟩ := Option.ne_none_iff_exists'.mp h0
    exact ⟨presetProcessRun k sr (copyBuffer buf) a,
      by simp [PresetEngine.process, getPresetLookup, hk]⟩
  · have h0 : getPresetKind name = none := (getPresetKind_none_iff name).mpr h
    simp [PresetEngine.process, getPresetLookup, h0, hp]

theorem preset_lookup_notfound_resolves_or_inherited_witness :
    (PresetEngine.process 44100 sampleAnalysis sampleBuffer "Chipmunk"
      = .error ("Preset \"" ++ "Chipmunk" ++ "\" not found")) ∧
    (∃ out, PresetEngine.process 44100 sampleAnalysis sampleBuffer "De-Harsh" = .ok out) ∧
    (PresetEngine.process 44100 sampleAnalysis sampleBuffer "valueOf"
      = .error "TypeError: preset.process is not a function") :=
  ⟨(preset_lookup_notfound_resolves_or_inherited 44100 sampleAnalysis sampleBuffer
      "Chipmunk").1 (by decide) (by decide),
   (preset_lookup_notfound_resolves_or_inherited 44100 sampleAnalysis sampleBuffer
      "De-Harsh").2.1 (by decide),
   (preset_lookup_notfound_resolves_or_inherited 44100 sampleAnalysis sampleBuffer
      "valueOf").2.2 (by decide) (by decide)⟩

/-- C7: whenever the driven signal `sample·drive` stays within the threshold
in magnitude, the soft clipper returns the driven signal unchanged — the tanh
saturation touches only content beyond the threshold. -/
theorem softClipper_preserves_below_threshold (s : SoftClipper) (x : ℝ)
    (h : |x * s.drive| ≤ s.threshold) :
    s.process x = x * s.drive := by
  unfold SoftClipper.process
  simp [not_lt.mpr h]

theorem softClipper_preserves_below_threshold_witness :
    |(0.5 : ℝ) * (1.2 : ℝ)| ≤ (0.8 : ℝ) ∧
    SoftClipper.process ⟨1.2, 0.8⟩ 0.5 = 0.5 * 1.2 :=
  ⟨by norm_num [abs_of_pos],
   softClipper_preserves_below_threshold ⟨1.2, 0.8⟩ 0.5 (by norm_num [abs_of_pos])⟩

/-- C8: the mono-bass processor replaces each channel's low-frequency
component (its one-pole low-pass) with the shared mono average, so the low
components carried by the two output channels coincide; whenever the two
channels' low components differed before processing, they are strictly
closer (distance `0`) after processing than before. -/
theorem monoBass_low_components_closer (m : MonoBassProcessor) (l r : ℝ)
    (h : m.newLeftLP l ≠ m.newRightLP r) :
    |((m.process l r).1 - (l - m.newLeftLP l))
        - ((m.process l r).2.1 - (r - m.newRightLP r))|
      < |m.newLeftLP l - m.newRightLP r| := by
  have e : ((m.process l r).1 - (l - m.newLeftLP l))
      - ((m.process l r).2.1 - (r - m.newRightLP r)) = 0 := by
    simp only [MonoBassProcessor.process]
    ring
  rw [e, abs_zero]
  exact abs_pos.mpr (sub_ne_zero.mpr h)

theorem monoBass_low_components_closer_witness :
    MonoBassProcessor.newLeftLP ⟨120, 44100, 1/2, 0, 0⟩ 1
      ≠ MonoBassProcessor.newRightLP ⟨120, 44100, 1/2, 0, 0⟩ 0 ∧
    |((MonoBassProcessor.process ⟨120, 44100, 1/2, 0, 0⟩ 1 0).1
        - (1 - MonoBassProcessor.newLeftLP ⟨120, 44100, 1/2, 0, 0⟩ 1))
      - ((MonoBassProcessor.process ⟨120, 44100, 1/2, 0, 0⟩ 1 0).2.1
        - (0 - MonoBassProcessor.newRightLP ⟨120, 44100, 1/2, 0, 0⟩ 0))|
      < |MonoBassProcessor.newLeftLP ⟨120, 44100, 1/2, 0, 0⟩ 1
          - MonoBassProcessor.newRightLP ⟨120, 44100, 1/2, 0, 0⟩ 0| :=
  have h : MonoBassProcessor.newLeftLP ⟨120, 44100, 1/2, 0, 0⟩ 1
      ≠ MonoBassProcessor.newRightLP ⟨120, 44100, 1/2, 0, 0⟩ 0 := by
    norm_num [MonoBassProcessor.newLeftLP, MonoBassProcessor.newRightLP]
  ⟨h, monoBass_low_components_closer ⟨120, 44100, 1/2, 0, 0⟩ 1 0 h⟩

/-- C9: a zero-energy input buffer is reported at the integrated-loudness
floor of exactly −70, and for every input buffer the reported integrated
loudness lies in `[-70, 0]`. -/
theorem analyze_lufs_floor_and_range (buf : AudioBuffer) :
    ((∀ x ∈ buf.channels.getD 0 [], x = (0 : ℝ)) →
      AudioAnalysis.analyzeIntegratedLUFS buf = -70) ∧
    (-70 ≤ AudioAnalysis.analyzeIntegratedLUFS buf ∧
      AudioAnalysis.analyzeIntegratedLUFS buf ≤ 0) := by
  refine ⟨fun h => ?_, ?_, ?_⟩
  · unfold AudioAnalysis.analyzeIntegratedLUFS AudioAnalysis.calculateLUFS
    set samples := buf.channels.getD 0 [] with hs
    have hsum : ∑ i ∈ Finset.range samples.length, (samples.getD i 0) ^ 2 = 0 := by
      refine Finset.sum_eq_zero fun i hi => ?_
      have hi' : i < samples.length := Finset.mem_range.mp hi
      have : samples.getD i 0 = samples[i] := List.getD_eq_getElem samples 0 hi'
      rw [this, h _ (List.getElem_mem hi')]
      norm_num
    rw [hsum]
    norm_num
  · exact le_max_left _ _
  · exact max_le (by norm_num) (min_le_left _ _)

theorem analyze_lufs_floor_and_range_witness :
    AudioAnalysis.analyzeIntegratedLUFS zeroBuffer = -70 :=
  (analyze_lufs_floor_and_range zeroBuffer).1 (by
    intro x hx
    simp [zeroBuffer] at hx
    exact hx)

/-- C5: on the paths of `exportToWAV`'s sample-writing section a dither
processor is constructed exactly when the export narrows to an integer bit
depth (16 or 24) with dithering requested, and the 32-bit float branch's
output is bit-for-bit independent of the dither flag and of the random
stream (it never constructs a dither processor). -/
theorem dither_iff_integer_narrowing (buf : AudioBuffer) (rand rand2 : ℕ → ℝ × ℝ) :
    exportPayload 32 true rand buf = exportPayload 32 false rand2 buf ∧
    ∀ bd : ℕ, bd = 16 ∨ bd = 24 ∨ bd = 32 →
      (ditherApplied bd true = true ↔ (bd = 16 ∨ bd = 24)) := by
  constructor
  · simp [exportPayload]
  · rintro bd (rfl | rfl | rfl) <;> simp [ditherApplied]

theorem dither_iff_integer_narrowing_witness :
    exportPayload 32 true (fun _ => (0, 0)) sampleBuffer
      = exportPayload 32 false (fun _ => (0, 0)) sampleBuffer ∧
    (ditherApplied 24 true = true ↔ ((24 : ℕ) = 16 ∨ (24 : ℕ) = 24)) :=
  ⟨(dither_iff_integer_narrowing sampleBuffer (fun _ => (0, 0)) (fun _ => (0, 0))).1,
   (dither_iff_integer_narrowing sampleBuffer (fun _ => (0, 0)) (fun _ => (0, 0))).2 24
     (by decide)⟩

/-- C1 (code bug): exporting any buffer with the Apple-Lossless spec
`{sampleRate: 48000, bitDepth: 24, truePeakCeiling: -0.5}` does **not**
complete: `exportToWAV` reads the undeclared identifier `truePeakCeiling`
(audioEngine.js:223 — it is never destructured from `options`), so the call
throws a `ReferenceError` before any bytes or Validation Report are
produced. -/
theorem exportToWAV_applelossless_throws (buf : AudioBuffer) (rand : ℕ → ℝ × ℝ) :
    exportToWAV buf appleLosslessOptions rand
      = .error "ReferenceError: truePeakCeiling is not defined" := by
  have hscope : "truePeakCeiling" ∉ exportToWAVScope := by decide
  simp [exportToWAV, resolveVar, hscope, Bind.bind, Except.bind]

/-!
### Shape preservation of the preset loops (claim C2)

Each loop only rewrites existing entries (`List.set`), so the per-channel
lengths and the channel count are invariant.
-/

theorem stepIndex_map_length {σ : Type} (step : σ → ℝ → ℝ × σ) (i : ℕ)
    (chs : List (List ℝ)) (s : σ) :
    ((stepIndex step i chs s).1).map List.length = chs.map List.length := by
  induction chs generalizing s with
  | nil => simp [stepIndex]
  | cons c cs ih => simp [stepIndex, ih]

theorem runFrom_map_length {σ : Type} (step : σ → ℝ → ℝ × σ) (fuel : ℕ) :
    ∀ (i : ℕ) (chs : List (List ℝ)) (s : σ),
      ((runFrom step i fuel chs s).1).map List.length = chs.map List.length := by
  induction fuel with
  | zero => intro i chs s; simp [runFrom]
  | succ fuel ih =>
    intro i chs s
    rw [runFrom, ih, stepIndex_map_length]

theorem runPairFrom_lengths {σ : Type} (step : σ → ℝ → ℝ → ℝ × ℝ × σ) (fuel : ℕ) :
    ∀ (i : ℕ) (l r : List ℝ) (s : σ),
      ((runPairFrom step i fuel l r s).1).length = l.length ∧
      ((runPairFrom step i fuel l r s).2.1).length = r.length := by
  induction fuel with
  | zero => intro i l r s; simp [runPairFrom]
  | succ fuel ih =>
    intro i l r s
    rw [runPairFrom]
    simpa using ih (i + 1) (l.set i _) (r.set i _) _

theorem runChanFrom_length {σ : Type} (step : σ → ℝ → ℝ × σ) (fuel : ℕ) :
    ∀ (i : ℕ) (c : List ℝ) (s : σ),
      ((runChanFrom step i fuel c s).1).length = c.length := by
  induction fuel with
  | zero => intro i c s; simp [runChanFrom]
  | succ fuel ih =>
    intro i c s
    rw [runChanFrom]
    simpa using ih (i + 1) (c.set i _) _

theorem stereoDispatch_map_length {σ : Type} (pairStep : σ → ℝ → ℝ → ℝ × ℝ × σ)
    (monoStep : σ → ℝ → ℝ × σ) (n len : ℕ) (chs : List (List ℝ)) (s : σ) :
    (stereoDispatch pairStep monoStep n len chs s).map List.length
      = chs.map List.length := by
  unfold stereoDispatch
  split
  · match chs with
    | [] => simp
    | [c] => simp
    | l :: r :: rest =>
      simp [(runPairFrom_lengths pairStep len 0 l r s).1,
            (runPairFrom_lengths pairStep len 0 l r s).2]
  · match chs with
    | [] => simp
    | c :: rest => simp [runChanFrom_length]

theorem presetProcessRun_shape (k : PresetKind) (sr : ℝ) (buf : AudioBuffer)
    (a : AnalysisData) :
    (presetProcessRun k sr buf a).numberOfChannels = buf.numberOfChannels ∧
    (presetProcessRun k sr buf a).length = buf.length ∧
    (presetProcessRun k sr buf a).sampleRate = buf.sampleRate ∧
    (presetProcessRun k sr buf a).channels.map List.length
      = buf.channels.map List.length := by
  cases k <;>
    simp [presetProcessRun, DeHarshPreset.process, MudRemoverPreset.process,
      BassTamerPreset.process, VintageWarmthPreset.process,
      ModernBrightPreset.process, LoFiCharacterPreset.process,
      NeoSoulPreset.process, FestivalBangerPreset.process,
      FocusCenterPreset.process, ImmersivePreset.process,
      WideSpaciousPreset.process, VocalForwardPreset.process,
      SmoothMidsPreset.process, DynamicClearPreset.process,
      MaximumImpactPreset.process, BigCappoPreset.process,
      runFrom_map_length, stereoDispatch_map_length]

theorem copyBuffer_fields (buf : AudioBuffer) :
    (copyBuffer buf).numberOfChannels = buf.numberOfChannels ∧
    (copyBuffer buf).length = buf.length ∧
    (copyBuffer buf).sampleRate = buf.sampleRate ∧
    (copyBuffer buf).channels.map List.length
      = List.replicate buf.numberOfChannels buf.length := by
  refine ⟨rfl, rfl, rfl, ?_⟩
  simp only [copyBuffer, List.map_map]
  rw [List.eq_replicate_iff]
  constructor
  · simp
  · intro x hx
    simp only [List.mem_map] at hx
    obtain ⟨ch, _, rfl⟩ := hx
    simp

/-- C2: for every catalogued chain name and every valid input buffer,
`PresetEngine.process` succeeds and produces a buffer with the same channel
count, the same length and the same sample rate as the input (and the output
buffer is itself well-formed). -/
theorem preset_process_shape_preserving (sr : ℝ) (a : AnalysisData)
    (buf : AudioBuffer) (name : String) (hname : name ∈ getPresetNames)
    (_hvalid : buf.valid) :
    ∃ out, PresetEngine.process sr a buf name = .ok out ∧
      out.numberOfChannels = buf.numberOfChannels ∧
      out.length = buf.length ∧
      out.sampleRate = buf.sampleRate ∧
      out.valid := by
  have h0 : getPresetKind name ≠ none :=
    fun hn => (getPresetKind_none_iff name).mp hn hname
  obtain ⟨k, hk⟩ := Option.ne_none_iff_exists'.mp h0
  obtain ⟨hn, hl, hs, hmap⟩ := presetProcessRun_shape k sr (copyBuffer buf) a
  obtain ⟨cn, cl, cs, cmap⟩ := copyBuffer_fields buf
  refine ⟨presetProcessRun k sr (copyBuffer buf) a,
    by simp [PresetEngine.process, getPresetLookup, hk], ?_, ?_, ?_, ?_, ?_⟩
  · rw [hn, cn]
  · rw [hl, cl]
  · rw [hs, cs]
  · have hlen : (presetProcessRun k sr (copyBuffer buf) a).channels.length
        = buf.numberOfChannels := by
      have := congrArg List.length (hmap.trans cmap)
      simpa using this
    rw [hn, cn] at *
    exact hlen
  · intro c hc
    have : c.length ∈ (presetProcessRun k sr (copyBuffer buf) a).channels.map List.length :=
      List.mem_map_of_mem List.length hc
    rw [hmap, cmap] at this
    rw [hl, cl]
    exact List.eq_of_mem_replicate this

theorem preset_process_shape_preserving_witness :
    ("Maximum Impact" ∈ getPresetNames ∧ sampleBuffer.valid) ∧
    ∃ out, PresetEngine.process 44100 sampleAnalysis sampleBuffer "Maximum Impact"
        = .ok out ∧
      out.numberOfChannels = sampleBuffer.numberOfChannels ∧
      out.length = sampleBuffer.length ∧
      out.sampleRate = sampleBuffer.sampleRate ∧
      out.valid :=
  have hv : sampleBuffer.valid := by
    refine ⟨rfl, ?_⟩
    intro c hc
    have h3 : c.length ∈ sampleBuffer.channels.map List.length :=
      List.mem_map_of_mem List.length hc
    have hc3 : c.length = 3 := by simpa [sampleBuffer] using h3
    simpa [sampleBuffer] using hc3
  ⟨⟨by decide, hv⟩,
   preset_process_shape_preserving 44100 sampleAnalysis sampleBuffer "Maximum Impact"
     (by decide) hv⟩

/-!
### Frame effect of `PresetEngine.process` (claim C10)
-/

theorem Store.read_writeMany_of_not_mem (rs : List ℕ) :
    ∀ (vs : List (List ℝ)) (st : Store) (r : ℕ), r ∉ rs →
      (st.writeMany rs vs).read r = st.read r := by
  induction rs with
  | nil => intro vs st r _; simp [Store.writeMany]
  | cons a rs ih =>
    intro vs st r h
    cases vs with
    | nil => simp [Store.writeMany]
    | cons v vs =>
      have h1 : r ∉ rs := fun hr => h (List.mem_cons_of_mem _ hr)
      have h2 : a ≠ r := fun he => h (he ▸ List.mem_cons_self a rs)
      have step : Store.read (Store.writeMany (st.set a v) rs vs) r
          = Store.read (st.set a v) r := ih vs (st.set a v) r h1
      simp only [Store.writeMany, List.zip_cons_cons, List.foldl_cons]
      simp only [Store.writeMany] at step
      rw [step]
      unfold Store.read
      simp [List.getD, List.getElem?_set_ne h2]

theorem Store.read_append_left (st t : Store) (r : ℕ) (h : r < st.length) :
    (Store.read (st ++ t) r) = st.read r := by
  unfold Store.read
  simp [List.getD, List.getElem?_append_left h]

/-- C10: for every catalogued chain, running `PresetEngine.process` leaves
every sample of the caller's input buffer unchanged — all mutation happens on
the freshly allocated working copy, so the original stays available for A/B
comparison. -/
theorem preset_process_input_arrays_unchanged (st : Store) (input : BufferRef)
    (sr : ℝ) (a : AnalysisData) (name : String)
    (hname : name ∈ getPresetNames)
    (hrefs : ∀ ref ∈ input.channelRefs, ref < st.length) :
    ∃ (procRef : BufferRef) (stOut : Store),
      PresetEngine.processStore st input sr a name = .ok (procRef, stOut) ∧
      ∀ ref ∈ input.channelRefs, stOut.read ref = st.read ref := by
  have h0 : getPresetKind name ≠ none :=
    fun hn => (getPresetKind_none_iff name).mp hn hname
  obtain ⟨k, hk⟩ := Option.ne_none_iff_exists'.mp h0
  simp only [PresetEngine.processStore, getPresetLookup, hk]
  refine ⟨_, _, rfl, ?_⟩
  intro ref href
  have hlt := hrefs ref href
  have hfresh : ref ∉ (st.createBuffer input.numberOfChannels input.length
      input.sampleRate).1.channelRefs := by
    intro hmem
    simp only [Store.createBuffer, List.mem_map, List.mem_range] at hmem
    obtain ⟨x, _, rfl⟩ := hmem
    omega
  rw [Store.read_writeMany_of_not_mem _ _ _ _ hfresh,
    Store.read_writeMany_of_not_mem _ _ _ _ hfresh]
  exact Store.read_append_left st _ ref hlt

theorem preset_process_input_arrays_unchanged_witness :
    ("BigCappo" ∈ getPresetNames ∧
      ∀ ref ∈ (BufferRef.mk 1 2 44100 [0]).channelRefs,
        ref < (([[0.5, -0.5]] : Store)).length) ∧
    ∃ (procRef : BufferRef) (stOut : Store),
      PresetEngine.processStore [[0.5, -0.5]] (BufferRef.mk 1 2 44100 [0])
          44100 sampleAnalysis "BigCappo" = .ok (procRef, stOut) ∧
      ∀ ref ∈ (BufferRef.mk 1 2 44100 [0]).channelRefs,
        stOut.read ref = Store.read [[0.5, -0.5]] ref :=
  ⟨⟨by decide, by decide⟩,
   preset_process_input_arrays_unchanged [[0.5, -0.5]] (BufferRef.mk 1 2 44100 [0])
     44100 sampleAnalysis "BigCappo" (by decide) (by decide)⟩

/-!
### Loudness normalization (claim C3)

`measureLUFS` reports `-0.691 + 10·log10(rms)` while `calculateGain` turns a
loudness difference `d` into the amplitude gain `10^(d/20)`; under the
`10·log10(rms)` measure that gain moves the reading by only `d/2`, so each
normalization pass closes half the remaining gap — normalization is *not*
idempotent within 0.1 dB.
-/

theorem getD_map_outer (g : ℝ) (l : List (List ℝ)) (ch : ℕ) :
    (l.map fun c => c.map fun x => x * g).getD ch []
      = ((l.getD ch []).map fun x => x * g) := by
  induction l generalizing ch with
  | nil => simp
  | cons c cs ih =>
    cases ch with
    | zero => simp
    | succ n => simpa using ih n

theorem getD_map_inner (g : ℝ) (c : List ℝ) (i : ℕ) :
    ((c.map fun x => x * g).getD i 0) = (c.getD i 0) * g := by
  induction c generalizing i with
  | nil => simp
  | cons x xs ih =>
    cases i with
    | zero => simp
    | succ n => simpa using ih n

theorem bufSumSquared_scale (g : ℝ) (buf : AudioBuffer) :
    bufSumSquared { buf with channels := buf.channels.map fun c => c.map fun x => x * g }
      = g ^ 2 * bufSumSquared buf := by
  unfold bufSumSquared
  simp only [getD_map_outer, getD_map_inner]
  rw [Finset.mul_sum]
  refine Finset.sum_congr rfl fun ch _ => ?_
  rw [Finset.mul_sum]
  refine Finset.sum_congr rfl fun i _ => ?_
  ring

theorem calculateGain_pos (target : ℝ) (buf : AudioBuffer) :
    0 < LosslessNormalizer.calculateGain target buf := by
  unfold LosslessNormalizer.calculateGain
  exact lt_min (Real.rpow_pos_of_pos (by norm_num) _) (by norm_num)

theorem rmsOf_normalize (target : ℝ) (buf : AudioBuffer) :
    rmsOf (LosslessNormalizer.normalize target buf)
      = LosslessNormalizer.calculateGain target buf * rmsOf buf := by
  have hg : 0 ≤ LosslessNormalizer.calculateGain target buf :=
    le_of_lt (calculateGain_pos target buf)
  unfold rmsOf LosslessNormalizer.normalize
  simp only []
  rw [bufSumSquared_scale, mul_div_assoc, Real.sqrt_mul (sq_nonneg _),
    Real.sqrt_sq_eq_abs, abs_of_nonneg hg]

theorem measureLUFS_of_pos (buf : AudioBuffer) (h : 0 < rmsOf buf)
    (hlo : (-70 : ℝ) ≤ -0.691 + 10 * Real.logb 10 (rmsOf buf))
    (hhi : -0.691 + 10 * Real.logb 10 (rmsOf buf) ≤ 0) :
    ExportValidator.measureLUFS buf = -0.691 + 10 * Real.logb 10 (rmsOf buf) := by
  unfold ExportValidator.measureLUFS
  simp only []
  rw [if_pos h, min_eq_right hhi, max_eq_right hlo]

theorem calculateGain_of_pos (target : ℝ) (buf : AudioBuffer) (h : 0 < rmsOf buf) :
    LosslessNormalizer.calculateGain target buf
      = min ((10 : ℝ) ^ ((target - (-0.691 + 10 * Real.logb 10 (rmsOf buf))) / 20)) 2 := by
  unfold LosslessNormalizer.calculateGain
  simp only []
  rw [if_pos h]

theorem ten_rpow_eighth_lt_two : (10 : ℝ) ^ ((1 : ℝ) / 8) < 2 := by
  by_contra hcon
  push_neg at hcon
  have key : ((10 : ℝ) ^ ((1 : ℝ) / 8)) ^ (8 : ℕ) = 10 := by
    rw [← Real.rpow_natCast ((10 : ℝ) ^ ((1 : ℝ) / 8)) 8,
      ← Real.rpow_mul (by norm_num : (0 : ℝ) ≤ 10)]
    norm_num
  have h2 : (2 : ℝ) ^ (8 : ℕ) ≤ ((10 : ℝ) ^ ((1 : ℝ) / 8)) ^ (8 : ℕ) :=
    pow_le_pow_left₀ (by norm_num) hcon 8
  rw [key] at h2
  norm_num at h2

theorem ten_rpow_le_two {e : ℝ} (he : e ≤ 1 / 8) : (10 : ℝ) ^ e ≤ 2 :=
  le_of_lt (lt_of_le_of_lt
    ((Real.rpow_le_rpow_left_iff (by norm_num : (1 : ℝ) < 10)).mpr he)
    ten_rpow_eighth_lt_two)

/-- Core computation behind claim C3: when the normalizer's gain is below the
+6 dB cap on both passes and the measured values stay inside the `[-70, 0]`
clamp, re-normalising once-normalised audio changes the measured loudness by
exactly a quarter of the original gap `target − L₀` — each pass closes only
half the remaining distance. -/
theorem normalize_twice_gap_aux (buf : AudioBuffer) (target : ℝ)
    (hrms : 0 < rmsOf buf)
    (hg1 : (10 : ℝ) ^ ((target - (-0.691 + 10 * Real.logb 10 (rmsOf buf))) / 20) ≤ 2)
    (hg2 : (10 : ℝ) ^ ((target - (-0.691 + 10 * Real.logb 10 (rmsOf buf))) / 2 / 20) ≤ 2)
    (hL1lo : (-70 : ℝ) ≤ -0.691 + 10 * Real.logb 10 (rmsOf buf)
        + (target - (-0.691 + 10 * Real.logb 10 (rmsOf buf))) / 2)
    (hL1hi : -0.691 + 10 * Real.logb 10 (rmsOf buf)
        + (target - (-0.691 + 10 * Real.logb 10 (rmsOf buf))) / 2 ≤ 0)
    (hL2lo : (-70 : ℝ) ≤ -0.691 + 10 * Real.logb 10 (rmsOf buf)
        + 3 * (target - (-0.691 + 10 * Real.logb 10 (rmsOf buf))) / 4)
    (hL2hi : -0.691 + 10 * Real.logb 10 (rmsOf buf)
        + 3 * (target - (-0.691 + 10 * Real.logb 10 (rmsOf buf))) / 4 ≤ 0) :
    ExportValidator.measureLUFS
        (LosslessNormalizer.normalize target (LosslessNormalizer.normalize target buf))
      - ExportValidator.measureLUFS (LosslessNormalizer.normalize target buf)
      = (target - (-0.691 + 10 * Real.logb 10 (rmsOf buf))) / 4 := by
  set r0 := rmsOf buf with hr0
  set L0 : ℝ := -0.691 + 10 * Real.logb 10 r0 with hL0
  set d : ℝ := target - L0 with hd
  have hb1 : (1 : ℝ) < 10 := by norm_num
  have hbp : (0 : ℝ) < 10 := by norm_num
  have hbne : (10 : ℝ) ≠ 1 := by norm_num
  -- first pass gain
  have hgain1 : LosslessNormalizer.calculateGain target buf = (10 : ℝ) ^ (d / 20) := by
    rw [calculateGain_of_pos target buf hrms, ← hr0, ← hL0, ← hd, min_eq_left hg1]
  have hg1pos : (0 : ℝ) < (10 : ℝ) ^ (d / 20) := Real.rpow_pos_of_pos hbp _
  -- rms after the first pass
  have hrms1 : rmsOf (LosslessNormalizer.normalize target buf) = (10 : ℝ) ^ (d / 20) * r0 := by
    rw [rmsOf_normalize, hgain1, hr0]
  have hrms1pos : 0 < rmsOf (LosslessNormalizer.normalize target buf) := by
    rw [hrms1]; exact mul_pos hg1pos hrms
  have hlog1 : Real.logb 10 (rmsOf (LosslessNormalizer.normalize target buf))
      = d / 20 + Real.logb 10 r0 := by
    rw [hrms1, Real.logb_mul (ne_of_gt hg1pos) (ne_of_gt hrms),
      Real.logb_rpow hbp hbne]
  have hL1 : -0.691 + 10 * Real.logb 10 (rmsOf (LosslessNormalizer.normalize target buf))
      = L0 + d / 2 := by
    rw [hlog1, hL0]; ring
  -- second pass gain
  have hgain2 : LosslessNormalizer.calculateGain target (LosslessNormalizer.normalize target buf)
      = (10 : ℝ) ^ (d / 2 / 20) := by
    rw [calculateGain_of_pos target _ hrms1pos, hL1]
    have : target - (L0 + d / 2) = d / 2 := by rw [hd]; ring
    rw [this, min_eq_left hg2]
  have hg2pos : (0 : ℝ) < (10 : ℝ) ^ (d / 2 / 20) := Real.rpow_pos_of_pos hbp _
  have hrms2 : rmsOf (LosslessNormalizer.normalize target (LosslessNormalizer.normalize target buf))
      = (10 : ℝ) ^ (d / 2 / 20) * rmsOf (LosslessNormalizer.normalize target buf) := by
    rw [rmsOf_normalize, hgain2]
  have hrms2pos : 0 < rmsOf (LosslessNormalizer.normalize target
      (LosslessNormalizer.normalize target buf)) := by
    rw [hrms2]; exact mul_pos hg2pos hrms1pos
  have hlog2 : Real.logb 10 (rmsOf (LosslessNormalizer.normalize target
        (LosslessNormalizer.normalize target buf)))
      = d / 2 / 20 + (d / 20 + Real.logb 10 r0) := by
    rw [hrms2, Real.logb_mul (ne_of_gt hg2pos) (ne_of_gt hrms1pos),
      Real.logb_rpow hbp hbne, hlog1]
  have hL2 : -0.691 + 10 * Real.logb 10 (rmsOf (LosslessNormalizer.normalize target
        (LosslessNormalizer.normalize target buf)))
      = L0 + 3 * d / 4 := by
    rw [hlog2, hL0]; ring
  have hm1 : ExportValidator.measureLUFS (LosslessNormalizer.normalize target buf)
      = L0 + d / 2 := by
    rw [measureLUFS_of_pos _ hrms1pos (by rw [hL1]; exact hL1lo) (by rw [hL1]; exact hL1hi),
      hL1]
  have hm2 : ExportValidator.measureLUFS (LosslessNormalizer.normalize target
        (LosslessNormalizer.normalize target buf))
      = L0 + 3 * d / 4 := by
    rw [measureLUFS_of_pos _ hrms2pos (by rw [hL2]; exact hL2lo) (by rw [hL2]; exact hL2hi),
      hL2]
  rw [hm1, hm2]
  ring

/-- A single-sample buffer at amplitude 0.1 (RMS exactly `1/10`). -/
def pointOneBuffer : AudioBuffer := ⟨1, 1, 44100, [[1 / 10]]⟩

theorem rmsOf_pointOne : rmsOf pointOneBuffer = 1 / 10 := by
  unfold rmsOf bufSumSquared pointOneBuffer
  norm_num
  rw [show (100 : ℝ) = (10 : ℝ) ^ 2 by norm_num, Real.sqrt_sq (by norm_num : (0 : ℝ) ≤ 10)]
  norm_num

theorem logb_ten_tenth : Real.logb 10 ((1 : ℝ) / 10) = -1 := by
  rw [show (1 / 10 : ℝ) = (10 : ℝ) ^ (-1 : ℝ) by rw [Real.rpow_neg_one]; norm_num]
  exact Real.logb_rpow (by norm_num) (by norm_num)

theorem pointOne_second_pass_gap :
    ExportValidator.measureLUFS
        (LosslessNormalizer.normalize (-9)
          (LosslessNormalizer.normalize (-9) pointOneBuffer))
      - ExportValidator.measureLUFS (LosslessNormalizer.normalize (-9) pointOneBuffer)
      = (-9 - (-0.691 + 10 * Real.logb 10 (rmsOf pointOneBuffer))) / 4 :=
  normalize_twice_gap_aux pointOneBuffer (-9)
    (by rw [rmsOf_pointOne]; norm_num)
    (by rw [rmsOf_pointOne, logb_ten_tenth]; exact ten_rpow_le_two (by norm_num))
    (by rw [rmsOf_pointOne, logb_ten_tenth]; exact ten_rpow_le_two (by norm_num))
    (by rw [rmsOf_pointOne, logb_ten_tenth]; norm_num)
    (by rw [rmsOf_pointOne, logb_ten_tenth]; norm_num)
    (by rw [rmsOf_pointOne, logb_ten_tenth]; norm_num)
    (by rw [rmsOf_pointOne, logb_ten_tenth]; norm_num)

/-- C3 counterexample: for the buffer `[[0.1]]` and target −9, normalizing
the already-normalized buffer changes its measured loudness by exactly
0.42275 dB — the claimed `< 0.1 dB` bound is false. -/
theorem normalize_not_idempotent_counterexample :
    ¬ (|ExportValidator.measureLUFS
          (LosslessNormalizer.normalize (-9)
            (LosslessNormalizer.normalize (-9) pointOneBuffer))
        - ExportValidator.measureLUFS (LosslessNormalizer.normalize (-9) pointOneBuffer)|
      < 0.1) := by
  have h := pointOne_second_pass_gap
  rw [rmsOf_pointOne, logb_ten_tenth] at h
  rw [not_lt, h, abs_of_nonneg (by norm_num)]
  norm_num

/-- C3 (amended): loudness normalization is *not* idempotent within 0.1 dB.
Whenever the +6 dB gain cap is inactive on both passes and the measured
values stay inside the `[-70, 0]` clamp, re-normalizing an
already-normalized buffer changes its measured loudness by exactly a quarter
of the original loudness-to-target gap (each pass closes only half the
remaining distance, because the gain converts dB with the `20·log10`
amplitude convention while loudness is measured with `10·log10(rms)`); the
change is below 0.1 dB only when the original loudness was already within
0.4 dB of the target. -/
theorem normalize_second_pass_quarter_gap (buf : AudioBuffer) (target : ℝ)
    (hrms : 0 < rmsOf buf)
    (hg1 : (10 : ℝ) ^ ((target - (-0.691 + 10 * Real.logb 10 (rmsOf buf))) / 20) ≤ 2)
    (hg2 : (10 : ℝ) ^ ((target - (-0.691 + 10 * Real.logb 10 (rmsOf buf))) / 2 / 20) ≤ 2)
    (hL1lo : (-70 : ℝ) ≤ -0.691 + 10 * Real.logb 10 (rmsOf buf)
        + (target - (-0.691 + 10 * Real.logb 10 (rmsOf buf))) / 2)
    (hL1hi : -0.691 + 10 * Real.logb 10 (rmsOf buf)
        + (target - (-0.691 + 10 * Real.logb 10 (rmsOf buf))) / 2 ≤ 0)
    (hL2lo : (-70 : ℝ) ≤ -0.691 + 10 * Real.logb 10 (rmsOf buf)
        + 3 * (target - (-0.691 + 10 * Real.logb 10 (rmsOf buf))) / 4)
    (hL2hi : -0.691 + 10 * Real.logb 10 (rmsOf buf)
        + 3 * (target - (-0.691 + 10 * Real.logb 10 (rmsOf buf))) / 4 ≤ 0) :
    ExportValidator.measureLUFS
        (LosslessNormalizer.normalize target (LosslessNormalizer.normalize target buf))
      - ExportValidator.measureLUFS (LosslessNormalizer.normalize target buf)
      = (target - (-0.691 + 10 * Real.logb 10 (rmsOf buf))) / 4 :=
  normalize_twice_gap_aux buf target hrms hg1 hg2 hL1lo hL1hi hL2lo hL2hi

theorem normalize_second_pass_quarter_gap_witness :
    0 < rmsOf pointOneBuffer ∧
    ExportValidator.measureLUFS
        (LosslessNormalizer.normalize (-9)
          (LosslessNormalizer.normalize (-9) pointOneBuffer))
      - ExportValidator.measureLUFS (LosslessNormalizer.normalize (-9) pointOneBuffer)
      = (-9 - (-0.691 + 10 * Real.logb 10 (rmsOf pointOneBuffer))) / 4 :=
  ⟨by rw [rmsOf_pointOne]; norm_num,
   normalize_second_pass_quarter_gap pointOneBuffer (-9)
     (by rw [rmsOf_pointOne]; norm_num)
     (by rw [rmsOf_pointOne, logb_ten_tenth]; exact ten_rpow_le_two (by norm_num))
     (by rw [rmsOf_pointOne, logb_ten_tenth]; exact ten_rpow_le_two (by norm_num))
     (by rw [rmsOf_pointOne, logb_ten_tenth]; norm_num)
     (by rw [rmsOf_pointOne, logb_ten_tenth]; norm_num)
     (by rw [rmsOf_pointOne, logb_ten_tenth]; norm_num)
     (by rw [rmsOf_pointOne, logb_ten_tenth]; norm_num)⟩

/-!
### True-peak limiting of the export pipeline (claim C4)

`LosslessTruePeakLimiter` never raises its gain (there is no release branch),
and whenever the estimated true peak is over the ceiling it clamps the gain
to `ceilingLinear / (estimate + 1e-10)`.  Hence every output sample satisfies
`|out| ≤ ceilingLinear / 1.01`, so the code's own inter-sample-peak estimate
of the *output* stays below the ceiling, with margin far inside 0.05 dB.
-/

theorem truePeakLimiter_process_bound (st : LosslessTruePeakLimiter) (x : ℝ)
    (hg0 : 0 ≤ st.gainReduction) (hg1 : st.gainReduction ≤ 1) :
    |(st.process x).1| ≤ (10 : ℝ) ^ (st.ceiling / 20) / 1.01 ∧
    0 ≤ (st.process x).2.gainReduction ∧
    (st.process x).2.gainReduction ≤ 1 ∧
    (st.process x).2.ceiling = st.ceiling := by
  have hL : (0 : ℝ) < (10 : ℝ) ^ (st.ceiling / 20) :=
    Real.rpow_pos_of_pos (by norm_num) _
  set L := (10 : ℝ) ^ (st.ceiling / 20) with hLdef
  set tp := LosslessTruePeakLimiter.detectTruePeak x st.lastSample with htp
  have htpx : 1.01 * |x| ≤ tp := by
    rw [htp]
    unfold LosslessTruePeakLimiter.detectTruePeak
    nlinarith [le_max_left |x| |st.lastSample|]
  have htp0 : 0 ≤ tp := le_trans (by positivity) htpx
  have htpe : (0 : ℝ) < tp + 1e-10 := by linarith
  unfold LosslessTruePeakLimiter.process
  simp only [← htp]
  by_cases hcond : 20 * Real.logb 10 (tp + 1e-10) > st.ceiling
  · rw [if_pos hcond]
    have ht : (10 : ℝ) ^ ((st.ceiling - 20 * Real.logb 10 (tp + 1e-10)) / 20)
        = L / (tp + 1e-10) := by
      rw [show (st.ceiling - 20 * Real.logb 10 (tp + 1e-10)) / 20
          = st.ceiling / 20 - Real.logb 10 (tp + 1e-10) by ring,
        Real.rpow_sub (by norm_num : (0 : ℝ) < 10),
        Real.rpow_logb (by norm_num) (by norm_num) htpe, hLdef]
    have htpos : (0 : ℝ) < L / (tp + 1e-10) := div_pos hL htpe
    set g := min st.gainReduction ((10 : ℝ) ^ ((st.ceiling - 20 * Real.logb 10 (tp + 1e-10)) / 20))
      with hgdef
    have hgnonneg : 0 ≤ g := le_min hg0 (by rw [ht]; exact le_of_lt htpos)
    have hgle : g ≤ L / (tp + 1e-10) := by rw [hgdef, ht]; exact min_le_right _ _
    have hmul : (tp + 1e-10) * g ≤ L := by
      rw [mul_comm]
      exact (le_div_iff₀ htpe).mp hgle
    refine ⟨?_, hgnonneg, le_trans (min_le_left _ _) hg1, by trivial⟩
    rw [abs_mul, abs_of_nonneg hgnonneg]
    rw [le_div_iff₀ (by norm_num : (0 : ℝ) < 1.01)]
    calc |x| * g * 1.01 = (1.01 * |x|) * g := by ring
    _ ≤ tp * g := mul_le_mul_of_nonneg_right htpx hgnonneg
    _ ≤ (tp + 1e-10) * g := by nlinarith
    _ ≤ L := hmul
  · rw [if_neg hcond]
    push_neg at hcond
    have htple : tp + 1e-10 ≤ L := by
      have hlogle : Real.logb 10 (tp + 1e-10) ≤ st.ceiling / 20 := by linarith
      exact (Real.logb_le_iff_le_rpow (by norm_num : (1 : ℝ) < 10) htpe).mp hlogle
    have hxle : 1.01 * |x| ≤ L := by linarith
    refine ⟨?_, hg0, hg1, by trivial⟩
    rw [abs_mul, abs_of_nonneg hg0]
    rw [le_div_iff₀ (by norm_num : (0 : ℝ) < 1.01)]
    have hstep : |x| * st.gainReduction * 1.01 ≤ |x| * 1.01 := by
      nlinarith [mul_nonneg (abs_nonneg x) (sub_nonneg.mpr hg1)]
    linarith [hstep, hxle]

theorem truePeakLimiter_processList_bound (input : List ℝ) :
    ∀ (st : LosslessTruePeakLimiter), 0 ≤ st.gainReduction → st.gainReduction ≤ 1 →
      ∀ y ∈ (st.processList input).1, |y| ≤ (10 : ℝ) ^ (st.ceiling / 20) / 1.01 := by
  induction input with
  | nil => intro st _ _ y hy; simp [LosslessTruePeakLimiter.processList] at hy
  | cons x xs ih =>
    intro st hg0 hg1 y hy
    obtain ⟨hb1, hb2, hb3, hceq⟩ := truePeakLimiter_process_bound st x hg0 hg1
    simp only [LosslessTruePeakLimiter.processList] at hy
    rcases List.mem_cons.mp hy with rfl | hmem
    · exact hb1
    · have := ih (st.process x).2 hb2 hb3 y hmem
      rwa [hceq] at this

theorem truePeakLimiter_processList_length (input : List ℝ) :
    ∀ (st : LosslessTruePeakLimiter), ((st.processList input).1).length = input.length := by
  induction input with
  | nil => intro st; simp [LosslessTruePeakLimiter.processList]
  | cons x xs ih => intro st; simp [LosslessTruePeakLimiter.processList, ih]

/-- The ceiling-plus-margin inequality: converting `ceilingLinear + 1e-10`
back to dB stays within 0.05 dB of the ceiling for any ceiling ≥ −60 dB. -/
theorem logb_ceiling_margin (c : ℝ) (hc1 : -60 ≤ c) :
    20 * Real.logb 10 ((10 : ℝ) ^ (c / 20) + 1e-10) ≤ c + 0.05 := by
  have hL : (0 : ℝ) < (10 : ℝ) ^ (c / 20) := Real.rpow_pos_of_pos (by norm_num) _
  set L := (10 : ℝ) ^ (c / 20) with hLdef
  have hLb : (1 / 1000 : ℝ) ≤ L := by
    have h3 : (10 : ℝ) ^ ((-3 : ℝ)) ≤ (10 : ℝ) ^ (c / 20) :=
      (Real.rpow_le_rpow_left_iff (by norm_num : (1 : ℝ) < 10)).mpr (by linarith)
    calc (1 / 1000 : ℝ) = (10 : ℝ) ^ ((-3 : ℝ)) := by
          rw [show ((-3 : ℝ)) = ((-3 : ℤ) : ℝ) by norm_num, Real.rpow_intCast]
          norm_num
    _ ≤ L := h3
  have hsplit : L + 1e-10 = L * (1 + 1e-10 / L) := by field_simp
  have hu0 : (0 : ℝ) ≤ 1e-10 / L := by positivity
  have hu : 1e-10 / L ≤ 1e-7 := by
    rw [div_le_iff₀ hL]
    nlinarith
  have hlogL : Real.logb 10 L = c / 20 := by
    rw [hLdef]
    exact Real.logb_rpow (by norm_num) (by norm_num)
  have hlogu : Real.logb 10 (1 + 1e-10 / L) ≤ 1e-7 := by
    have hlog : Real.log (1 + 1e-10 / L) ≤ 1e-10 / L := by
      have := Real.log_le_sub_one_of_pos (show (0 : ℝ) < 1 + 1e-10 / L by linarith)
      linarith
    have hlog0 : 0 ≤ Real.log (1 + 1e-10 / L) := Real.log_nonneg (by linarith)
    have hld : (1 : ℝ) ≤ Real.log 10 := by
      rw [Real.le_log_iff_exp_le (by norm_num : (0 : ℝ) < 10)]
      have := Real.exp_one_lt_d9
      linarith
    unfold Real.logb
    calc Real.log (1 + 1e-10 / L) / Real.log 10 ≤ Real.log (1 + 1e-10 / L) :=
          div_le_self hlog0 hld
    _ ≤ 1e-10 / L := hlog
    _ ≤ 1e-7 := hu
  rw [hsplit, Real.logb_mul (ne_of_gt hL) (by positivity), hlogL]
  linarith

/-- C4: for any input stream whose peak exceeds the ceiling before limiting
(ceiling in the practical −60…0 dB range), every output sample of the export
pipeline's true-peak limiter has estimated true peak — the code's own
neighbour-interpolation estimate with its 1% margin, converted to dB — at
most the ceiling plus the 0.05 dB tolerance. -/
theorem truePeak_limited_within_tolerance (c sr : ℝ) (input : List ℝ)
    (hc1 : -60 ≤ c) (_hc2 : c ≤ 0)
    (_hpeak : ∃ x ∈ input, (10 : ℝ) ^ (c / 20) < |x|) :
    ∀ i < (((LosslessTruePeakLimiter.mk0 c sr).processList input).1).length,
      20 * Real.logb 10
          (LosslessTruePeakLimiter.detectTruePeak
              (((LosslessTruePeakLimiter.mk0 c sr).processList input).1.getD i 0)
              (((LosslessTruePeakLimiter.mk0 c sr).processList input).1.getD (i - 1) 0)
            + 1e-10)
        ≤ c + 0.05 := by
  intro i hi
  have hL : (0 : ℝ) < (10 : ℝ) ^ (c / 20) := Real.rpow_pos_of_pos (by norm_num) _
  have hbound := truePeakLimiter_processList_bound input (LosslessTruePeakLimiter.mk0 c sr)
    (by norm_num [LosslessTruePeakLimiter.mk0]) (by norm_num [LosslessTruePeakLimiter.mk0])
  have hceil : (LosslessTruePeakLimiter.mk0 c sr).ceiling = c := rfl
  rw [hceil] at hbound
  set out := ((LosslessTruePeakLimiter.mk0 c sr).processList input).1 with hout
  have h1 : |out.getD i 0| ≤ (10 : ℝ) ^ (c / 20) / 1.01 := by
    rw [List.getD_eq_getElem out 0 hi]
    exact hbound _ (List.getElem_mem hi)
  have h2 : |out.getD (i - 1) 0| ≤ (10 : ℝ) ^ (c / 20) / 1.01 := by
    have hi' : i - 1 < out.length := lt_of_le_of_lt (Nat.sub_le i 1) hi
    rw [List.getD_eq_getElem out 0 hi']
    exact hbound _ (List.getElem_mem hi')
  have hdet : LosslessTruePeakLimiter.detectTruePeak (out.getD i 0) (out.getD (i - 1) 0)
      ≤ (10 : ℝ) ^ (c / 20) := by
    unfold LosslessTruePeakLimiter.detectTruePeak
    have hmax : max |out.getD i 0| |out.getD (i - 1) 0| ≤ (10 : ℝ) ^ (c / 20) / 1.01 :=
      max_le h1 h2
    calc max |out.getD i 0| |out.getD (i - 1) 0| * 1.01
        ≤ ((10 : ℝ) ^ (c / 20) / 1.01) * 1.01 :=
          mul_le_mul_of_nonneg_right hmax (by norm_num)
    _ = (10 : ℝ) ^ (c / 20) := by field_simp
  have hdet0 : 0 ≤ LosslessTruePeakLimiter.detectTruePeak (out.getD i 0) (out.getD (i - 1) 0) := by
    unfold LosslessTruePeakLimiter.detectTruePeak
    positivity
  have hmono : Real.logb 10
      (LosslessTruePeakLimiter.detectTruePeak (out.getD i 0) (out.getD (i - 1) 0) + 1e-10)
      ≤ Real.logb 10 ((10 : ℝ) ^ (c / 20) + 1e-10) :=
    Real.logb_le_logb_of_le (by norm_num : (1 : ℝ) < 10) (by linarith) (by linarith)
  have hmargin := logb_ceiling_margin c hc1
  linarith

theorem truePeak_limited_within_tolerance_witness :
    ((-60 : ℝ) ≤ -1 ∧ (-1 : ℝ) ≤ 0 ∧
      ∃ x ∈ [(1 : ℝ)], (10 : ℝ) ^ ((-1 : ℝ) / 20) < |x|) ∧
    20 * Real.logb 10
        (LosslessTruePeakLimiter.detectTruePeak
            (((LosslessTruePeakLimiter.mk0 (-1) 48000).processList [(1 : ℝ)]).1.getD 0 0)
            (((LosslessTruePeakLimiter.mk0 (-1) 48000).processList [(1 : ℝ)]).1.getD (0 - 1) 0)
          + 1e-10)
      ≤ -1 + 0.05 :=
  have hpeak : ∃ x ∈ [(1 : ℝ)], (10 : ℝ) ^ ((-1 : ℝ) / 20) < |x| := by
    refine ⟨1, by simp, ?_⟩
    rw [abs_one]
    exact Real.rpow_lt_one_of_one_lt_of_neg (by norm_num) (by norm_num)
  ⟨⟨by norm_num, by norm_num, hpeak⟩,
   truePeak_limited_within_tolerance (-1) 48000 [(1 : ℝ)] (by norm_num) (by norm_num) hpeak 0
     (by rw [truePeakLimiter_processList_length]; norm_num)⟩

end TrapPro
